import Mathlib

/-!
Shallow embedding of the BookVerse backend (src/index.js, the full version of
the file: the document registering routes for authors, books, users,
categories, publishers, reviews, orders and coupons).

Modelling conventions:
* Each Express handler becomes a pure function `Store → … → HResp α × Store`.
  The returned `Store` is the state of the persisted JSON document after the
  request: handlers only call writeData on their success path, so every early
  `return res.status(...)` yields the unchanged input store (in-memory
  mutations that are never written back are unobservable, since every request
  re-reads the document from disk).
* JSON body fields are three-valued in update requests
  (`Option (Option _)`: `none` = key absent/undefined, `some none` = explicit
  null, `some (some v)` = value) and two-valued in create requests
  (`Option _`: absent/null vs value — create handlers only ever test
  truthiness or isValidString, for which undefined and null coincide).
* JS numbers used by the claims (price, quantity, total, rating,
  discountPercentage, foundationYear) are modelled as `Int`.
* `uuidv4()` and `new Date().toISOString()` are modelled as explicit
  `newId`/`now` parameters.
* The query string `expand` with its `String.prototype.includes` tests is
  modelled as an optional token list with membership tests: for the relation
  names occurring in the source ("author", "category", "publisher", "user",
  "book"), none of which is a substring of another or contains a comma,
  substring search in the comma-separated query value agrees with membership
  in its token list.
-/

namespace BookVerse

/-- Model of JS String.prototype.trim: strip whitespace from both ends,
defined structurally over the character list so that closed instances
evaluate inside the kernel. -/
def jsTrim (s : String) : String :=
  String.mk (((s.data.dropWhile Char.isWhitespace).reverse.dropWhile
    Char.isWhitespace).reverse)

/-- Model of JS String.prototype.toUpperCase (ASCII uppercasing), defined
structurally over the character list. -/
def jsToUpper (s : String) : String :=
  String.mk (s.data.map Char.toUpper)

/-- JS `isValidString` applied to a possibly absent/null value:
`typeof v === 'string' && v.trim().length > 0`. -/
def isValidStringO : Option String → Bool
  | some s => jsTrim s != ""
  | none => false

/-- JS `isValidPrice` applied to a possibly absent/null value:
`typeof v === 'number' && v >= 0`. -/
def isValidPriceO : Option Int → Bool
  | some p => decide (0 ≤ p)
  | none => false

/-- Truthiness of a possibly absent/null JS string (undefined, null and the
empty string are falsy). -/
def jsTruthyO : Option String → Bool
  | some s => s != ""
  | none => false

/-- The JS pattern `v || null` on a string field. -/
def jsOrNull (v : Option String) : Option String :=
  if jsTruthyO v then v else none

/-- The JS pattern `v ? String(v).trim() : ''`. -/
def jsStrOrEmpty (v : Option String) : String :=
  if jsTruthyO v then jsTrim (v.getD "") else ""

/-- The JS pattern `v ? String(v).trim() : null`. -/
def jsTrimOrNull (v : Option String) : Option String :=
  if jsTruthyO v then some (jsTrim (v.getD "")) else none

/-- JS `String(v)` on a present field whose value may be null
(`String(null) = "null"`). -/
def jsStr : Option String → String
  | some s => s
  | none => "null"

/-- JS `v || 1` on the optional numeric `item.quantity` (0 is falsy). -/
def effQty : Option Int → Int
  | some q => if q = 0 then 1 else q
  | none => 1

/-- JS `v ? Number(v) : null` on the optional numeric `foundationYear`
(0 is falsy). -/
def jsNumOrNull : Option Int → Option Int
  | some n => if n = 0 then none else some n
  | none => none

/-- First element satisfying a predicate, together with its index: the
combination of JS `findIndex` and the subsequent `array[idx]` access. -/
def findWithIdx (p : α → Bool) : List α → Option (Nat × α)
  | [] => none
  | x :: xs =>
      if p x then some (0, x)
      else (findWithIdx p xs).map (fun ia => (ia.1 + 1, ia.2))

/-- JS `array.some((x, i) => …)` with the element index available, starting
the count at `i`. -/
def anyWithIdxFrom (p : Nat → α → Bool) : Nat → List α → Bool
  | _, [] => false
  | i, x :: xs => p i x || anyWithIdxFrom p (i + 1) xs

/-- JS `array.some((x, i) => …)` with the element index available. -/
def anyWithIdx (p : Nat → α → Bool) (l : List α) : Bool :=
  anyWithIdxFrom p 0 l

/-! ## Entities (records of the persisted document) -/

structure Author where
  id : String
  name : String
  biography : String
  nationality : Option String
  createdAt : String
  updatedAt : Option String := none
deriving Repr, DecidableEq

structure Book where
  id : String
  title : String
  description : String
  price : Int
  file : Option String
  authorId : String
  categoryId : Option String
  publisherId : Option String
  createdAt : String
  updatedAt : Option String := none
deriving Repr, DecidableEq

structure User where
  id : String
  name : String
  email : String
  password : Option String
  createdAt : String
  updatedAt : Option String := none
deriving Repr, DecidableEq

structure Category where
  id : String
  name : String
  createdAt : String
  updatedAt : Option String := none
deriving Repr, DecidableEq

structure Publisher where
  id : String
  name : String
  foundationYear : Option Int
  createdAt : String
  updatedAt : Option String := none
deriving Repr, DecidableEq

structure Review where
  id : String
  userId : String
  bookId : String
  rating : Int
  comment : String
  createdAt : String
  updatedAt : Option String := none
deriving Repr, DecidableEq

structure OrderItem where
  bookId : String
  quantity : Option Int
deriving Repr, DecidableEq

structure Order where
  id : String
  userId : String
  items : List OrderItem
  total : Int
  status : String
  createdAt : String
  updatedAt : Option String := none
deriving Repr, DecidableEq

structure Coupon where
  id : String
  code : String
  discountPercentage : Int
  createdAt : String
  updatedAt : Option String := none
deriving Repr, DecidableEq

/-- The persisted JSON document (`data.json`). -/
structure Store where
  authors : List Author
  books : List Book
  users : List User
  categories : List Category
  publishers : List Publisher
  reviews : List Review
  orders : List Order
  coupons : List Coupon
deriving Repr, DecidableEq

/-- Shape of an HTTP handler outcome: a 2xx payload, a 204, or a 400/404
error with the handler's message. -/
inductive HResp (α : Type) where
  | ok (a : α)
  | noContent
  | badRequest (msg : String)
  | notFound (msg : String)
deriving Repr, DecidableEq

/-! ## Request bodies -/

structure AuthorCreateReq where
  name : Option String := none
  biography : Option String := none
  nationality : Option String := none
deriving Repr, DecidableEq

structure AuthorUpdateReq where
  name : Option (Option String) := none
  biography : Option (Option String) := none
  nationality : Option (Option String) := none
deriving Repr, DecidableEq

structure BookCreateReq where
  title : Option String := none
  description : Option String := none
  price : Option Int := none
  file : Option String := none
  authorId : Option String := none
  categoryId : Option String := none
  publisherId : Option String := none
deriving Repr, DecidableEq

structure BookUpdateReq where
  title : Option (Option String) := none
  description : Option (Option String) := none
  price : Option (Option Int) := none
  file : Option (Option String) := none
  authorId : Option (Option String) := none
  categoryId : Option (Option String) := none
  publisherId : Option (Option String) := none
deriving Repr, DecidableEq

structure UserCreateReq where
  name : Option String := none
  email : Option String := none
  password : Option String := none
deriving Repr, DecidableEq

structure UserUpdateReq where
  name : Option (Option String) := none
  email : Option (Option String) := none
  password : Option (Option String) := none
deriving Repr, DecidableEq

structure CategoryCreateReq where
  name : Option String := none
deriving Repr, DecidableEq

structure CategoryUpdateReq where
  name : Option (Option String) := none
deriving Repr, DecidableEq

structure PublisherCreateReq where
  name : Option String := none
  foundationYear : Option Int := none
deriving Repr, DecidableEq

structure PublisherUpdateReq where
  name : Option (Option String) := none
  foundationYear : Option (Option Int) := none
deriving Repr, DecidableEq

structure ReviewCreateReq where
  userId : Option String := none
  bookId : Option String := none
  rating : Option Int := none
  comment : Option String := none
deriving Repr, DecidableEq

structure ReviewUpdateReq where
  rating : Option (Option Int) := none
  comment : Option (Option String) := none
deriving Repr, DecidableEq

structure OrderCreateReq where
  userId : Option String := none
  items : List OrderItem := []
deriving Repr, DecidableEq

structure OrderUpdateReq where
  status : Option (Option String) := none
deriving Repr, DecidableEq

structure CouponCreateReq where
  code : Option String := none
  discountPercentage : Option Int := none
deriving Repr, DecidableEq

structure CouponUpdateReq where
  code : Option (Option String) := none
  discountPercentage : Option (Option Int) := none
deriving Repr, DecidableEq

/-- Sequencing of fallible field updates inside a PUT handler: the first
failed validation makes the handler return early, skipping the remaining
field updates. -/
def seqE {α : Type} (x : Except String α) (f : α → Except String α) :
    Except String α :=
  match x with
  | .error m => .error m
  | .ok a => f a

@[simp] theorem seqE_ok {α : Type} (a : α) (f : α → Except String α) :
    seqE (.ok a) f = f a := rfl

@[simp] theorem seqE_error {α : Type} (m : String) (f : α → Except String α) :
    seqE (.error m) f = .error m := rfl

/-! ## Author handlers (RF03) -/

def postAuthors (s : Store) (r : AuthorCreateReq) (newId now : String) :
    HResp Author × Store :=
  if !isValidStringO r.name then
    (.badRequest "Nome do autor é obrigatório.", s)
  else
    let newAuthor : Author :=
      { id := newId
        name := jsTrim (r.name.getD "")
        biography := jsStrOrEmpty r.biography
        nationality := jsTrimOrNull r.nationality
        createdAt := now }
    (.ok newAuthor, { s with authors := s.authors ++ [newAuthor] })

def getAuthors (s : Store) : HResp (List Author) × Store :=
  (.ok s.authors, s)

def getAuthorById (s : Store) (id : String) : HResp Author × Store :=
  match s.authors.find? (fun a => a.id == id) with
  | none => (.notFound "Autor não encontrado", s)
  | some a => (.ok a, s)

def stepAuthorName (r : AuthorUpdateReq) (a : Author) : Except String Author :=
  match r.name with
  | none => .ok a
  | some v =>
      if !isValidStringO v then .error "Nome inválido"
      else .ok { a with name := jsTrim (v.getD "") }

def stepAuthorBiography (r : AuthorUpdateReq) (a : Author) : Author :=
  match r.biography with
  | none => a
  | some v => { a with biography := jsTrim (jsStr v) }

def stepAuthorNationality (r : AuthorUpdateReq) (a : Author) : Author :=
  match r.nationality with
  | none => a
  | some v => { a with nationality := jsTrimOrNull v }

/-- The sequence of field updates of PUT /authors/:id; the first failing
validation aborts the whole handler before any write. -/
def putAuthorsFields (r : AuthorUpdateReq) (a0 : Author) :
    Except String Author :=
  seqE (stepAuthorName r a0) (fun a1 =>
    .ok (stepAuthorNationality r (stepAuthorBiography r a1)))

def putAuthors (s : Store) (id : String) (r : AuthorUpdateReq) (now : String) :
    HResp Author × Store :=
  match findWithIdx (fun a => a.id == id) s.authors with
  | none => (.notFound "Autor não encontrado", s)
  | some (idx, a0) =>
    match putAuthorsFields r a0 with
    | .error m => (.badRequest m, s)
    | .ok a =>
        let a' := { a with updatedAt := some now }
        (.ok a', { s with authors := s.authors.set idx a' })

def deleteAuthors (s : Store) (id : String) : HResp Unit × Store :=
  if s.books.any (fun b => b.authorId == id) then
    (.badRequest "Autor está associado a um livro e não pode ser excluído.", s)
  else
    let newAuthors := s.authors.filter (fun a => a.id != id)
    if newAuthors.length == s.authors.length then
      (.notFound "Autor não encontrado", s)
    else
      (.noContent, { s with authors := newAuthors })

/-! ## Book handlers (RF02) -/

def postBooks (s : Store) (r : BookCreateReq) (newId now : String) :
    HResp Book × Store :=
  if !isValidStringO r.title then
    (.badRequest "Título é obrigatório.", s)
  else if !isValidPriceO r.price then
    (.badRequest "Preço inválido (número >= 0).", s)
  else if !isValidStringO r.authorId then
    (.badRequest "authorId é obrigatório.", s)
  else if (s.authors.find? (fun a => a.id == r.authorId.getD "")).isNone then
    (.badRequest "Autor não encontrado (authorId inválido).", s)
  else if jsTruthyO r.publisherId &&
      (s.publishers.find? (fun p => p.id == r.publisherId.getD "")).isNone then
    (.badRequest "Editora não encontrada.", s)
  else
    let newBook : Book :=
      { id := newId
        title := jsTrim (r.title.getD "")
        description := jsStrOrEmpty r.description
        price := r.price.getD 0
        file := jsOrNull r.file
        authorId := r.authorId.getD ""
        categoryId := jsOrNull r.categoryId
        publisherId := jsOrNull r.publisherId
        createdAt := now }
    (.ok newBook, { s with books := s.books ++ [newBook] })

/-- Presence of a relation field in a serialized response record: the spread
pattern of the source, `...(x && \x7b x \x7d)`, adds the field exactly when
`x` is truthy, so both an unrequested relation (undefined) and a requested but
unresolved one (null) leave the field absent. -/
inductive JField (α : Type) where
  | absent
  | null
  | val (a : α)
deriving Repr, DecidableEq

/-- Evaluate the spread `...(x && \x7b x \x7d)` where the outer option is
"was the relation requested" and the inner option is the result of the
`find || null` lookup. -/
def attachIfTruthy : Option (Option α) → JField α
  | none => .absent
  | some none => .absent
  | some (some a) => .val a

/-- A Book as serialized by the read endpoints: the record's own fields plus
the relation fields added by expansion. -/
structure ExpandedBook where
  book : Book
  author : JField Author
  category : JField Category
  publisher : JField Publisher
deriving Repr, DecidableEq

def expandBook (s : Store) (e : List String) (b : Book) : ExpandedBook :=
  let author : Option (Option Author) :=
    if e.contains "author" then some (s.authors.find? (fun a => a.id == b.authorId))
    else none
  let category : Option (Option Category) :=
    if e.contains "category" then
      some (s.categories.find? (fun c => some c.id == b.categoryId))
    else none
  let publisher : Option (Option Publisher) :=
    if e.contains "publisher" then
      some (s.publishers.find? (fun p => some p.id == b.publisherId))
    else none
  { book := b
    author := attachIfTruthy author
    category := attachIfTruthy category
    publisher := attachIfTruthy publisher }

/-- A Book serialized without any expansion: no relation field present. -/
def plainBook (b : Book) : ExpandedBook :=
  { book := b, author := .absent, category := .absent, publisher := .absent }

def getBooks (s : Store) (expand : Option (List String)) :
    HResp (List ExpandedBook) × Store :=
  match expand with
  | none => (.ok (s.books.map plainBook), s)
  | some e => (.ok (s.books.map (expandBook s e)), s)

def getBookById (s : Store) (id : String) (expand : Option (List String)) :
    HResp ExpandedBook × Store :=
  match s.books.find? (fun b => b.id == id) with
  | none => (.notFound "Livro não encontrado", s)
  | some b =>
    match expand with
    | none => (.ok (plainBook b), s)
    | some e => (.ok (expandBook s e b), s)

def stepBookTitle (r : BookUpdateReq) (b : Book) : Except String Book :=
  match r.title with
  | none => .ok b
  | some v =>
      if !isValidStringO v then .error "Título inválido"
      else .ok { b with title := jsTrim (v.getD "") }

def stepBookDescription (r : BookUpdateReq) (b : Book) : Book :=
  match r.description with
  | none => b
  | some v => { b with description := jsTrim (jsStr v) }

def stepBookPrice (r : BookUpdateReq) (b : Book) : Except String Book :=
  match r.price with
  | none => .ok b
  | some v =>
      if !isValidPriceO v then .error "Preço inválido"
      else .ok { b with price := v.getD 0 }

def stepBookFile (r : BookUpdateReq) (b : Book) : Book :=
  match r.file with
  | none => b
  | some v => { b with file := v }

def stepBookAuthorId (s : Store) (r : BookUpdateReq) (b : Book) :
    Except String Book :=
  match r.authorId with
  | none => .ok b
  | some v =>
      if !isValidStringO v then .error "authorId inválido"
      else if !(s.authors.any (fun a => a.id == v.getD "")) then
        .error "Autor não encontrado (authorId inválido)."
      else .ok { b with authorId := v.getD "" }

def stepBookCategoryId (s : Store) (r : BookUpdateReq) (b : Book) :
    Except String Book :=
  match r.categoryId with
  | none => .ok b
  | some v =>
      if jsTruthyO v && !isValidStringO v then
        .error "categoryId inválido."
      else if jsTruthyO v && !(s.categories.any (fun c => c.id == v.getD "")) then
        .error "Categoria não encontrada (categoryId inválido)."
      else .ok { b with categoryId := jsOrNull v }

def stepBookPublisherId (s : Store) (r : BookUpdateReq) (b : Book) :
    Except String Book :=
  match r.publisherId with
  | none => .ok b
  | some v =>
      if jsTruthyO v && !isValidStringO v then
        .error "publisherId inválido."
      else if jsTruthyO v && !(s.publishers.any (fun p => p.id == v.getD "")) then
        .error "Editora não encontrada."
      else .ok { b with publisherId := jsOrNull v }

/-- The sequence of field updates of PUT /books/:id, in source order (title,
description, price, file, authorId, categoryId, publisherId); the first
failing validation aborts the whole handler before any write. -/
def putBooksFields (s : Store) (r : BookUpdateReq) (b0 : Book) :
    Except String Book :=
  seqE (stepBookTitle r b0) (fun b1 =>
  seqE (stepBookPrice r (stepBookDescription r b1)) (fun b3 =>
  seqE (stepBookAuthorId s r (stepBookFile r b3)) (fun b5 =>
  seqE (stepBookCategoryId s r b5) (fun b6 =>
  stepBookPublisherId s r b6))))

def putBooks (s : Store) (id : String) (r : BookUpdateReq) (now : String) :
    HResp Book × Store :=
  match findWithIdx (fun b => b.id == id) s.books with
  | none => (.notFound "Livro não encontrado", s)
  | some (idx, b0) =>
    match putBooksFields s r b0 with
    | .error m => (.badRequest m, s)
    | .ok b =>
        let b' := { b with updatedAt := some now }
        (.ok b', { s with books := s.books.set idx b' })

def deleteBooks (s : Store) (id : String) : HResp Unit × Store :=
  let newBooks := s.books.filter (fun b => b.id != id)
  if newBooks.length == s.books.length then
    (.notFound "Livro não encontrado", s)
  else
    (.noContent, { s with books := newBooks })

/-! ## User handlers (RF01) -/

/-- A User as serialized by the API (rest-destructuring drops the password
key before res.json). -/
structure SafeUser where
  id : String
  name : String
  email : String
  createdAt : String
  updatedAt : Option String := none
deriving Repr, DecidableEq

def User.toSafe (u : User) : SafeUser :=
  { id := u.id, name := u.name, email := u.email
    createdAt := u.createdAt, updatedAt := u.updatedAt }

def postUsers (s : Store) (r : UserCreateReq) (newId now : String) :
    HResp SafeUser × Store :=
  if !(isValidStringO r.name && isValidStringO r.email && isValidStringO r.password) then
    (.badRequest "Nome, e-mail e senha são obrigatórios.", s)
  else if s.users.any (fun u => u.email == jsTrim (r.email.getD "")) then
    (.badRequest "E-mail já cadastrado.", s)
  else
    let newUser : User :=
      { id := newId
        name := jsTrim (r.name.getD "")
        email := jsTrim (r.email.getD "")
        password := some (r.password.getD "")
        createdAt := now }
    (.ok newUser.toSafe, { s with users := s.users ++ [newUser] })

def getUsers (s : Store) : HResp (List SafeUser) × Store :=
  (.ok (s.users.map User.toSafe), s)

def getUserById (s : Store) (id : String) : HResp SafeUser × Store :=
  match s.users.find? (fun u => u.id == id) with
  | none => (.notFound "Usuário não encontrado", s)
  | some u => (.ok u.toSafe, s)

def stepUserName (r : UserUpdateReq) (u : User) : Except String User :=
  match r.name with
  | none => .ok u
  | some v =>
      if !isValidStringO v then .error "Nome inválido"
      else .ok { u with name := jsTrim (v.getD "") }

/-- Email update of PUT /users/:id; the uniqueness check excludes the record
being updated by its index `idx`. -/
def stepUserEmail (s : Store) (idx : Nat) (r : UserUpdateReq) (u : User) :
    Except String User :=
  match r.email with
  | none => .ok u
  | some v =>
      if !isValidStringO v then .error "E-mail inválido"
      else if anyWithIdx
          (fun i w => i != idx && w.email == jsTrim (v.getD "")) s.users then
        .error "E-mail já cadastrado para outro usuário."
      else .ok { u with email := jsTrim (v.getD "") }

def stepUserPassword (r : UserUpdateReq) (u : User) : User :=
  match r.password with
  | none => u
  | some v => { u with password := v }

/-- The sequence of field updates of PUT /users/:id. -/
def putUsersFields (s : Store) (idx : Nat) (r : UserUpdateReq) (u0 : User) :
    Except String User :=
  seqE (stepUserName r u0) (fun u1 =>
  seqE (stepUserEmail s idx r u1) (fun u2 =>
  .ok (stepUserPassword r u2)))

def putUsers (s : Store) (id : String) (r : UserUpdateReq) (now : String) :
    HResp SafeUser × Store :=
  match findWithIdx (fun u => u.id == id) s.users with
  | none => (.notFound "Usuário não encontrado", s)
  | some (idx, u0) =>
    match putUsersFields s idx r u0 with
    | .error m => (.badRequest m, s)
    | .ok u =>
        let u' := { u with updatedAt := some now }
        (.ok u'.toSafe, { s with users := s.users.set idx u' })

def deleteUsers (s : Store) (id : String) : HResp Unit × Store :=
  if s.books.any (fun b => b.authorId == id) then
    (.badRequest "Usuário possui registros associados (Livros) e não pode ser excluído.", s)
  else
    let newUsers := s.users.filter (fun u => u.id != id)
    if newUsers.length == s.users.length then
      (.notFound "Usuário não encontrado", s)
    else
      (.noContent, { s with users := newUsers })

/-! ## Category handlers (RF04) -/

def postCategories (s : Store) (r : CategoryCreateReq) (newId now : String) :
    HResp Category × Store :=
  if !isValidStringO r.name then
    (.badRequest "Nome da categoria é obrigatório.", s)
  else
    let newCategory : Category :=
      { id := newId, name := jsTrim (r.name.getD ""), createdAt := now }
    (.ok newCategory, { s with categories := s.categories ++ [newCategory] })

def getCategories (s : Store) : HResp (List Category) × Store :=
  (.ok s.categories, s)

def getCategoryById (s : Store) (id : String) : HResp Category × Store :=
  match s.categories.find? (fun c => c.id == id) with
  | none => (.notFound "Categoria não encontrada", s)
  | some c => (.ok c, s)

def putCategories (s : Store) (id : String) (r : CategoryUpdateReq) (now : String) :
    HResp Category × Store :=
  match findWithIdx (fun c => c.id == id) s.categories with
  | none => (.notFound "Categoria não encontrada", s)
  | some (idx, c0) =>
    match r.name with
    | some v =>
        if !isValidStringO v then (.badRequest "Nome inválido", s)
        else
          let c' := { c0 with name := jsTrim (v.getD ""), updatedAt := some now }
          (.ok c', { s with categories := s.categories.set idx c' })
    | none =>
        let c' := { c0 with updatedAt := some now }
        (.ok c', { s with categories := s.categories.set idx c' })

def deleteCategories (s : Store) (id : String) : HResp Unit × Store :=
  if s.books.any (fun b => b.categoryId == some id) then
    (.badRequest "Categoria está associada a um livro e não pode ser excluída.", s)
  else
    let newCategories := s.categories.filter (fun c => c.id != id)
    if newCategories.length == s.categories.length then
      (.notFound "Categoria não encontrada", s)
    else
      (.noContent, { s with categories := newCategories })

/-! ## Publisher handlers (RF05) -/

def postPublishers (s : Store) (r : PublisherCreateReq) (newId now : String) :
    HResp Publisher × Store :=
  if !isValidStringO r.name then
    (.badRequest "Nome da editora é obrigatório.", s)
  else
    let newPublisher : Publisher :=
      { id := newId
        name := jsTrim (r.name.getD "")
        foundationYear := jsNumOrNull r.foundationYear
        createdAt := now }
    (.ok newPublisher, { s with publishers := s.publishers ++ [newPublisher] })

def getPublishers (s : Store) : HResp (List Publisher) × Store :=
  (.ok s.publishers, s)

def getPublisherById (s : Store) (id : String) : HResp Publisher × Store :=
  match s.publishers.find? (fun p => p.id == id) with
  | none => (.notFound "Editora não encontrada", s)
  | some p => (.ok p, s)

def stepPublisherName (r : PublisherUpdateReq) (p : Publisher) :
    Except String Publisher :=
  match r.name with
  | none => .ok p
  | some v =>
      if !isValidStringO v then .error "Nome inválido"
      else .ok { p with name := jsTrim (v.getD "") }

/-- JS sets foundationYear to Number(v), which maps an explicit null to 0. -/
def stepPublisherFoundationYear (r : PublisherUpdateReq) (p : Publisher) :
    Publisher :=
  match r.foundationYear with
  | none => p
  | some v => { p with foundationYear := some (v.getD 0) }

def putPublishersFields (r : PublisherUpdateReq) (p0 : Publisher) :
    Except String Publisher :=
  seqE (stepPublisherName r p0) (fun p1 =>
    .ok (stepPublisherFoundationYear r p1))

def putPublishers (s : Store) (id : String) (r : PublisherUpdateReq) (now : String) :
    HResp Publisher × Store :=
  match findWithIdx (fun p => p.id == id) s.publishers with
  | none => (.notFound "Editora não encontrada", s)
  | some (idx, p0) =>
    match putPublishersFields r p0 with
    | .error m => (.badRequest m, s)
    | .ok p =>
        let p' := { p with updatedAt := some now }
        (.ok p', { s with publishers := s.publishers.set idx p' })

def deletePublishers (s : Store) (id : String) : HResp Unit × Store :=
  if s.books.any (fun b => b.publisherId == some id) then
    (.badRequest "Editora está associada a um livro e não pode ser excluída.", s)
  else
    let newPublishers := s.publishers.filter (fun p => p.id != id)
    if newPublishers.length == s.publishers.length then
      (.notFound "Editora não encontrada", s)
    else
      (.noContent, { s with publishers := newPublishers })

/-! ## Review handlers (RF06) -/

def postReviews (s : Store) (r : ReviewCreateReq) (newId now : String) :
    HResp Review × Store :=
  if !(isValidStringO r.userId && isValidStringO r.bookId) then
    (.badRequest "userId e bookId são obrigatórios.", s)
  else
    match r.rating with
    | none => (.badRequest "Avaliação deve ser um número entre 1 e 5.", s)
    | some rating =>
      if rating < 1 || rating > 5 then
        (.badRequest "Avaliação deve ser um número entre 1 e 5.", s)
      else if !(s.users.any (fun u => u.id == r.userId.getD "") &&
          s.books.any (fun b => b.id == r.bookId.getD "")) then
        (.badRequest "Usuário ou Livro não encontrado.", s)
      else
        let newReview : Review :=
          { id := newId
            userId := r.userId.getD ""
            bookId := r.bookId.getD ""
            rating := rating
            comment := jsStrOrEmpty r.comment
            createdAt := now }
        (.ok newReview, { s with reviews := s.reviews ++ [newReview] })

/-- A Review as serialized by the list endpoint: the record's own fields plus
the relation fields added by expansion. An attached user is serialized
without its password key: the handler sets it to undefined, which res.json
omits. -/
structure ExpandedReview where
  review : Review
  user : JField SafeUser
  book : JField Book
deriving Repr, DecidableEq

def expandReview (s : Store) (e : List String) (r : Review) : ExpandedReview :=
  let user : Option (Option User) :=
    if e.contains "user" then some (s.users.find? (fun u => u.id == r.userId))
    else none
  let book : Option (Option Book) :=
    if e.contains "book" then some (s.books.find? (fun b => b.id == r.bookId))
    else none
  { review := r
    user := attachIfTruthy (user.map (fun ou => ou.map User.toSafe))
    book := attachIfTruthy book }

def plainReview (r : Review) : ExpandedReview :=
  { review := r, user := .absent, book := .absent }

def getReviews (s : Store) (expand : Option (List String)) :
    HResp (List ExpandedReview) × Store :=
  match expand with
  | none => (.ok (s.reviews.map plainReview), s)
  | some e => (.ok (s.reviews.map (expandReview s e)), s)

def getReviewById (s : Store) (id : String) : HResp Review × Store :=
  match s.reviews.find? (fun r => r.id == id) with
  | none => (.notFound "Avaliação não encontrada", s)
  | some r => (.ok r, s)

def stepReviewRating (r : ReviewUpdateReq) (v : Review) : Except String Review :=
  match r.rating with
  | none => .ok v
  | some none => .error "Avaliação inválida."
  | some (some rating) =>
      if rating < 1 || rating > 5 then .error "Avaliação inválida."
      else .ok { v with rating := rating }

def stepReviewComment (r : ReviewUpdateReq) (v : Review) : Review :=
  match r.comment with
  | none => v
  | some w => { v with comment := jsTrim (jsStr w) }

def putReviewsFields (r : ReviewUpdateReq) (v0 : Review) :
    Except String Review :=
  seqE (stepReviewRating r v0) (fun v1 => .ok (stepReviewComment r v1))

def putReviews (s : Store) (id : String) (r : ReviewUpdateReq) (now : String) :
    HResp Review × Store :=
  match findWithIdx (fun v => v.id == id) s.reviews with
  | none => (.notFound "Avaliação não encontrada", s)
  | some (idx, v0) =>
    match putReviewsFields r v0 with
    | .error m => (.badRequest m, s)
    | .ok v =>
        let v' := { v with updatedAt := some now }
        (.ok v', { s with reviews := s.reviews.set idx v' })

def deleteReviews (s : Store) (id : String) : HResp Unit × Store :=
  let newReviews := s.reviews.filter (fun r => r.id != id)
  if newReviews.length == s.reviews.length then
    (.notFound "Avaliação não encontrada", s)
  else
    (.noContent, { s with reviews := newReviews })

/-! ## Order handlers (RF07) -/

/-- The total-accumulation loop of POST /orders: the first item whose bookId
does not resolve aborts the request; otherwise total accumulates
price times quantity (quantity defaulting to 1). -/
def computeTotal (books : List Book) : List OrderItem → Except String Int
  | [] => Except.ok 0
  | item :: rest =>
    match books.find? (fun b => b.id == item.bookId) with
    | none => Except.error ("Livro " ++ item.bookId ++ " não encontrado.")
    | some book =>
      match computeTotal books rest with
      | Except.ok t => Except.ok (book.price * effQty item.quantity + t)
      | Except.error e => Except.error e

def postOrders (s : Store) (r : OrderCreateReq) (newId now : String) :
    HResp Order × Store :=
  if !isValidStringO r.userId then
    (.badRequest "userId é obrigatório.", s)
  else if r.items.isEmpty then
    (.badRequest "Itens do pedido são obrigatórios.", s)
  else if !(s.users.any (fun u => u.id == r.userId.getD "")) then
    (.badRequest "Usuário não encontrado.", s)
  else
    match computeTotal s.books r.items with
    | .error m => (.badRequest m, s)
    | .ok total =>
        let newOrder : Order :=
          { id := newId
            userId := r.userId.getD ""
            items := r.items
            total := total
            status := "pending"
            createdAt := now }
        (.ok newOrder, { s with orders := s.orders ++ [newOrder] })

def getOrders (s : Store) : HResp (List Order) × Store :=
  (.ok s.orders, s)

def getOrderById (s : Store) (id : String) : HResp Order × Store :=
  match s.orders.find? (fun o => o.id == id) with
  | none => (.notFound "Pedido não encontrado", s)
  | some o => (.ok o, s)

def putOrders (s : Store) (id : String) (r : OrderUpdateReq) (now : String) :
    HResp Order × Store :=
  match findWithIdx (fun o => o.id == id) s.orders with
  | none => (.notFound "Pedido não encontrado", s)
  | some (idx, o0) =>
    match r.status with
    | some v =>
        if !isValidStringO v then (.badRequest "Status inválido", s)
        else
          let o' := { o0 with status := jsTrim (v.getD ""), updatedAt := some now }
          (.ok o', { s with orders := s.orders.set idx o' })
    | none =>
        let o' := { o0 with updatedAt := some now }
        (.ok o', { s with orders := s.orders.set idx o' })

def deleteOrders (s : Store) (id : String) : HResp Unit × Store :=
  let newOrders := s.orders.filter (fun o => o.id != id)
  if newOrders.length == s.orders.length then
    (.notFound "Pedido não encontrado", s)
  else
    (.noContent, { s with orders := newOrders })

/-! ## Coupon handlers (RF08) -/

/-- Body of the coupon create handler (the lines tagged RF08.1 in the source;
in the file as shipped this body sits in the catch block of DELETE /orders/:id
because the route registration line for POST /coupons was lost, but the body
itself is intact and is the code the specification describes). Note that it
performs no uniqueness check on the normalized code. -/
def createCoupon (s : Store) (r : CouponCreateReq) (newId now : String) :
    HResp Coupon × Store :=
  if !isValidStringO r.code then
    (.badRequest "Código do cupom é obrigatório.", s)
  else
    match r.discountPercentage with
    | none => (.badRequest "Porcentagem de desconto inválida.", s)
    | some d =>
      if d ≤ 0 || d > 100 then
        (.badRequest "Porcentagem de desconto inválida.", s)
      else
        let newCoupon : Coupon :=
          { id := newId
            code := jsToUpper (jsTrim (r.code.getD ""))
            discountPercentage := d
            createdAt := now }
        (.ok newCoupon, { s with coupons := s.coupons ++ [newCoupon] })

def getCoupons (s : Store) : HResp (List Coupon) × Store :=
  (.ok s.coupons, s)

def getCouponById (s : Store) (id : String) : HResp Coupon × Store :=
  match s.coupons.find? (fun c => c.id == id) with
  | none => (.notFound "Cupom não encontrado", s)
  | some c => (.ok c, s)

def stepCouponCode (r : CouponUpdateReq) (c : Coupon) : Except String Coupon :=
  match r.code with
  | none => .ok c
  | some v =>
      if !isValidStringO v then .error "Código inválido"
      else .ok { c with code := jsToUpper (jsTrim (v.getD "")) }

def stepCouponDiscount (r : CouponUpdateReq) (c : Coupon) :
    Except String Coupon :=
  match r.discountPercentage with
  | none => .ok c
  | some none => .error "Porcentagem de desconto inválida."
  | some (some d) =>
      if d ≤ 0 || d > 100 then .error "Porcentagem de desconto inválida."
      else .ok { c with discountPercentage := d }

def putCouponsFields (r : CouponUpdateReq) (c0 : Coupon) :
    Except String Coupon :=
  seqE (stepCouponCode r c0) (stepCouponDiscount r)

def putCoupons (s : Store) (id : String) (r : CouponUpdateReq) (now : String) :
    HResp Coupon × Store :=
  match findWithIdx (fun c => c.id == id) s.coupons with
  | none => (.notFound "Cupom não encontrado", s)
  | some (idx, c0) =>
    match putCouponsFields r c0 with
    | .error m => (.badRequest m, s)
    | .ok c =>
        let c' := { c with updatedAt := some now }
        (.ok c', { s with coupons := s.coupons.set idx c' })

def deleteCoupons (s : Store) (id : String) : HResp Unit × Store :=
  let newCoupons := s.coupons.filter (fun c => c.id != id)
  if newCoupons.length == s.coupons.length then
    (.notFound "Cupom não encontrado", s)
  else
    (.noContent, { s with coupons := newCoupons })

/-! ## The full operation alphabet of the API -/

/-- One request to any endpoint of the API, with the request-scoped
generated values (uuid, timestamp) as explicit data. -/
inductive Op where
  | postAuthors (r : AuthorCreateReq) (newId now : String)
  | getAuthors
  | getAuthorById (id : String)
  | putAuthors (id : String) (r : AuthorUpdateReq) (now : String)
  | deleteAuthors (id : String)
  | postBooks (r : BookCreateReq) (newId now : String)
  | getBooks (expand : Option (List String))
  | getBookById (id : String) (expand : Option (List String))
  | putBooks (id : String) (r : BookUpdateReq) (now : String)
  | deleteBooks (id : String)
  | postUsers (r : UserCreateReq) (newId now : String)
  | getUsers
  | getUserById (id : String)
  | putUsers (id : String) (r : UserUpdateReq) (now : String)
  | deleteUsers (id : String)
  | postCategories (r : CategoryCreateReq) (newId now : String)
  | getCategories
  | getCategoryById (id : String)
  | putCategories (id : String) (r : CategoryUpdateReq) (now : String)
  | deleteCategories (id : String)
  | postPublishers (r : PublisherCreateReq) (newId now : String)
  | getPublishers
  | getPublisherById (id : String)
  | putPublishers (id : String) (r : PublisherUpdateReq) (now : String)
  | deletePublishers (id : String)
  | postReviews (r : ReviewCreateReq) (newId now : String)
  | getReviews (expand : Option (List String))
  | getReviewById (id : String)
  | putReviews (id : String) (r : ReviewUpdateReq) (now : String)
  | deleteReviews (id : String)
  | postOrders (r : OrderCreateReq) (newId now : String)
  | getOrders
  | getOrderById (id : String)
  | putOrders (id : String) (r : OrderUpdateReq) (now : String)
  | deleteOrders (id : String)
  | createCoupon (r : CouponCreateReq) (newId now : String)
  | getCoupons
  | getCouponById (id : String)
  | putCoupons (id : String) (r : CouponUpdateReq) (now : String)
  | deleteCoupons (id : String)
deriving DecidableEq

/-- The persisted document after one request. -/
def applyOp (s : Store) : Op → Store
  | .postAuthors r i n => (postAuthors s r i n).2
  | .getAuthors => (getAuthors s).2
  | .getAuthorById id => (getAuthorById s id).2
  | .putAuthors id r n => (putAuthors s id r n).2
  | .deleteAuthors id => (deleteAuthors s id).2
  | .postBooks r i n => (postBooks s r i n).2
  | .getBooks e => (getBooks s e).2
  | .getBookById id e => (getBookById s id e).2
  | .putBooks id r n => (putBooks s id r n).2
  | .deleteBooks id => (deleteBooks s id).2
  | .postUsers r i n => (postUsers s r i n).2
  | .getUsers => (getUsers s).2
  | .getUserById id => (getUserById s id).2
  | .putUsers id r n => (putUsers s id r n).2
  | .deleteUsers id => (deleteUsers s id).2
  | .postCategories r i n => (postCategories s r i n).2
  | .getCategories => (getCategories s).2
  | .getCategoryById id => (getCategoryById s id).2
  | .putCategories id r n => (putCategories s id r n).2
  | .deleteCategories id => (deleteCategories s id).2
  | .postPublishers r i n => (postPublishers s r i n).2
  | .getPublishers => (getPublishers s).2
  | .getPublisherById id => (getPublisherById s id).2
  | .putPublishers id r n => (putPublishers s id r n).2
  | .deletePublishers id => (deletePublishers s id).2
  | .postReviews r i n => (postReviews s r i n).2
  | .getReviews e => (getReviews s e).2
  | .getReviewById id => (getReviewById s id).2
  | .putReviews id r n => (putReviews s id r n).2
  | .deleteReviews id => (deleteReviews s id).2
  | .postOrders r i n => (postOrders s r i n).2
  | .getOrders => (getOrders s).2
  | .getOrderById id => (getOrderById s id).2
  | .putOrders id r n => (putOrders s id r n).2
  | .deleteOrders id => (deleteOrders s id).2
  | .createCoupon r i n => (createCoupon s r i n).2
  | .getCoupons => (getCoupons s).2
  | .getCouponById id => (getCouponById s id).2
  | .putCoupons id r n => (putCoupons s id r n).2
  | .deleteCoupons id => (deleteCoupons s id).2

/-! ## Specification lemmas for the JS-array helpers -/

theorem findWithIdx_eq_none {p : α → Bool} {l : List α} :
    findWithIdx p l = none ↔ ∀ x ∈ l, p x = false := by
  induction l with
  | nil => simp [findWithIdx]
  | cons x xs ih =>
    simp only [findWithIdx]
    by_cases h : p x
    · simp [h]
    · simp [h, Option.map_eq_none', ih]

theorem findWithIdx_spec {p : α → Bool} {l : List α} {i : Nat} {x : α}
    (h : findWithIdx p l = some (i, x)) : l[i]? = some x ∧ p x = true := by
  induction l generalizing i with
  | nil => simp [findWithIdx] at h
  | cons y ys ih =>
    simp only [findWithIdx] at h
    by_cases hp : p y
    · simp only [hp, if_true, Option.some.injEq, Prod.mk.injEq] at h
      obtain ⟨hi, hx⟩ := h
      subst hi; subst hx
      simp [hp]
    · simp only [hp, if_false, Option.map_eq_some', Bool.false_eq_true] at h
      obtain ⟨⟨j, z⟩, hj, hz⟩ := h
      obtain ⟨hji, hzx⟩ := Prod.mk.injEq .. ▸ hz
      subst hzx
      obtain ⟨hget, hpz⟩ := ih hj
      refine ⟨?_, hpz⟩
      rw [← hji]
      simpa using hget

theorem anyWithIdxFrom_iff {p : Nat → α → Bool} {l : List α} {k : Nat} :
    anyWithIdxFrom p k l = true ↔
      ∃ j x, l[j]? = some x ∧ p (k + j) x = true := by
  induction l generalizing k with
  | nil => simp [anyWithIdxFrom]
  | cons y ys ih =>
    simp only [anyWithIdxFrom, Bool.or_eq_true, ih]
    constructor
    · rintro (h | ⟨j, x, hj, hp⟩)
      · exact ⟨0, y, by simp, by simpa using h⟩
      · refine ⟨j + 1, x, by simpa using hj, ?_⟩
        have harith : k + 1 + j = k + (j + 1) := by omega
        rwa [harith] at hp
    · rintro ⟨j, x, hj, hp⟩
      cases j with
      | zero =>
          left
          simp only [List.getElem?_cons_zero, Option.some.injEq] at hj
          subst hj
          simpa using hp
      | succ j =>
          right
          refine ⟨j, x, by simpa using hj, ?_⟩
          have harith : k + 1 + j = k + (j + 1) := by omega
          rwa [harith]

theorem anyWithIdx_iff {p : Nat → α → Bool} {l : List α} :
    anyWithIdx p l = true ↔ ∃ j x, l[j]? = some x ∧ p j x = true := by
  simpa using (anyWithIdxFrom_iff (p := p) (l := l) (k := 0))

theorem filter_ne_length_eq {l : List α} {f : α → String} {id : String}
    (h : ∀ x ∈ l, f x ≠ id) :
    (l.filter (fun x => f x != id)).length = l.length := by
  rw [List.filter_length_eq_length]
  intro a ha
  simpa using h a ha

theorem filter_ne_length_lt {l : List α} {f : α → String} {id : String}
    {x : α} (hx : x ∈ l) (hid : f x = id) :
    (l.filter (fun x => f x != id)).length ≠ l.length := by
  intro hlen
  rw [List.filter_length_eq_length] at hlen
  have := hlen x hx
  simp [hid] at this

/-- An element of a list stays reachable (by the key it carries) after a
`set` that keeps the key of the overwritten slot. -/
theorem exists_key_set {l : List α} {i : Nat} {x0 x : α} (f : α → String)
    (hget : l[i]? = some x0) (hid : f x = f x0) {t : String}
    (h : ∃ y ∈ l, f y = t) : ∃ y ∈ l.set i x, f y = t := by
  obtain ⟨y, hy, hyt⟩ := h
  obtain ⟨j, hj, hyj⟩ := List.getElem_of_mem hy
  by_cases hji : j = i
  · subst hji
    have hx0 : y = x0 := by
      have := List.getElem?_eq_getElem hj
      rw [hyj, hget] at this
      exact (Option.some_inj.mp this).symm
    have hilen : j < (l.set j x).length := by simpa using hj
    refine ⟨x, ?_, ?_⟩
    · have : (l.set j x)[j]? = some x := by
        rw [List.getElem?_eq_getElem hilen]
        simp [List.getElem_set_self]
      exact List.getElem?_mem this
    · rw [hid, ← hx0, hyt]
  · have : (l.set i x)[j]? = l[j]? := List.getElem?_set_ne (by omega)
    have hmem : y ∈ l.set i x := by
      apply List.getElem?_mem
      rw [this, List.getElem?_eq_getElem hj, hyj]
    exact ⟨y, hmem, hyt⟩

/-! ## Which slice of the document each handler can rewrite -/

theorem postAuthors_state (s : Store) (r : AuthorCreateReq) (i n : String) :
    (postAuthors s r i n).2 = s ∨
      ∃ v, (postAuthors s r i n).2 = { s with authors := v } := by
  unfold postAuthors
  simp only []
  repeat' split
  all_goals first
    | exact Or.inl rfl
    | exact Or.inr ⟨_, rfl⟩

theorem putAuthors_state (s : Store) (id : String) (r : AuthorUpdateReq) (n : String) :
    (putAuthors s id r n).2 = s ∨
      ∃ v, (putAuthors s id r n).2 = { s with authors := v } := by
  unfold putAuthors
  simp only []
  repeat' split
  all_goals first
    | exact Or.inl rfl
    | exact Or.inr ⟨_, rfl⟩

theorem deleteAuthors_state (s : Store) (id : String) :
    (deleteAuthors s id).2 = s ∨
      ∃ v, (deleteAuthors s id).2 = { s with authors := v } := by
  unfold deleteAuthors
  simp only []
  repeat' split
  all_goals first
    | exact Or.inl rfl
    | exact Or.inr ⟨_, rfl⟩

theorem postBooks_state (s : Store) (r : BookCreateReq) (i n : String) :
    (postBooks s r i n).2 = s ∨
      ∃ v, (postBooks s r i n).2 = { s with books := v } := by
  unfold postBooks
  simp only []
  repeat' split
  all_goals first
    | exact Or.inl rfl
    | exact Or.inr ⟨_, rfl⟩

theorem putBooks_state (s : Store) (id : String) (r : BookUpdateReq) (n : String) :
    (putBooks s id r n).2 = s ∨
      ∃ v, (putBooks s id r n).2 = { s with books := v } := by
  unfold putBooks
  simp only []
  repeat' split
  all_goals first
    | exact Or.inl rfl
    | exact Or.inr ⟨_, rfl⟩

theorem deleteBooks_state (s : Store) (id : String) :
    (deleteBooks s id).2 = s ∨
      ∃ v, (deleteBooks s id).2 = { s with books := v } := by
  unfold deleteBooks
  simp only []
  repeat' split
  all_goals first
    | exact Or.inl rfl
    | exact Or.inr ⟨_, rfl⟩

theorem postUsers_state (s : Store) (r : UserCreateReq) (i n : String) :
    (postUsers s r i n).2 = s ∨
      ∃ v, (postUsers s r i n).2 = { s with users := v } := by
  unfold postUsers
  simp only []
  repeat' split
  all_goals first
    | exact Or.inl rfl
    | exact Or.inr ⟨_, rfl⟩

theorem putUsers_state (s : Store) (id : String) (r : UserUpdateReq) (n : String) :
    (putUsers s id r n).2 = s ∨
      ∃ v, (putUsers s id r n).2 = { s with users := v } := by
  unfold putUsers
  simp only []
  repeat' split
  all_goals first
    | exact Or.inl rfl
    | exact Or.inr ⟨_, rfl⟩

theorem deleteUsers_state (s : Store) (id : String) :
    (deleteUsers s id).2 = s ∨
      ∃ v, (deleteUsers s id).2 = { s with users := v } := by
  unfold deleteUsers
  simp only []
  repeat' split
  all_goals first
    | exact Or.inl rfl
    | exact Or.inr ⟨_, rfl⟩

theorem postCategories_state (s : Store) (r : CategoryCreateReq) (i n : String) :
    (postCategories s r i n).2 = s ∨
      ∃ v, (postCategories s r i n).2 = { s with categories := v } := by
  unfold postCategories
  simp only []
  repeat' split
  all_goals first
    | exact Or.inl rfl
    | exact Or.inr ⟨_, rfl⟩

theorem putCategories_state (s : Store) (id : String) (r : CategoryUpdateReq) (n : String) :
    (putCategories s id r n).2 = s ∨
      ∃ v, (putCategories s id r n).2 = { s with categories := v } := by
  unfold putCategories
  simp only []
  repeat' split
  all_goals first
    | exact Or.inl rfl
    | exact Or.inr ⟨_, rfl⟩

theorem deleteCategories_state (s : Store) (id : String) :
    (deleteCategories s id).2 = s ∨
      ∃ v, (deleteCategories s id).2 = { s with categories := v } := by
  unfold deleteCategories
  simp only []
  repeat' split
  all_goals first
    | exact Or.inl rfl
    | exact Or.inr ⟨_, rfl⟩

theorem postPublishers_state (s : Store) (r : PublisherCreateReq) (i n : String) :
    (postPublishers s r i n).2 = s ∨
      ∃ v, (postPublishers s r i n).2 = { s with publishers := v } := by
  unfold postPublishers
  simp only []
  repeat' split
  all_goals first
    | exact Or.inl rfl
    | exact Or.inr ⟨_, rfl⟩

theorem putPublishers_state (s : Store) (id : String) (r : PublisherUpdateReq) (n : String) :
    (putPublishers s id r n).2 = s ∨
      ∃ v, (putPublishers s id r n).2 = { s with publishers := v } := by
  unfold putPublishers
  simp only []
  repeat' split
  all_goals first
    | exact Or.inl rfl
    | exact Or.inr ⟨_, rfl⟩

theorem deletePublishers_state (s : Store) (id : String) :
    (deletePublishers s id).2 = s ∨
      ∃ v, (deletePublishers s id).2 = { s with publishers := v } := by
  unfold deletePublishers
  simp only []
  repeat' split
  all_goals first
    | exact Or.inl rfl
    | exact Or.inr ⟨_, rfl⟩

theorem postReviews_state (s : Store) (r : ReviewCreateReq) (i n : String) :
    (postReviews s r i n).2 = s ∨
      ∃ v, (postReviews s r i n).2 = { s with reviews := v } := by
  unfold postReviews
  simp only []
  repeat' split
  all_goals first
    | exact Or.inl rfl
    | exact Or.inr ⟨_, rfl⟩

theorem putReviews_state (s : Store) (id : String) (r : ReviewUpdateReq) (n : String) :
    (putReviews s id r n).2 = s ∨
      ∃ v, (putReviews s id r n).2 = { s with reviews := v } := by
  unfold putReviews
  simp only []
  repeat' split
  all_goals first
    | exact Or.inl rfl
    | exact Or.inr ⟨_, rfl⟩

theorem deleteReviews_state (s : Store) (id : String) :
    (deleteReviews s id).2 = s ∨
      ∃ v, (deleteReviews s id).2 = { s with reviews := v } := by
  unfold deleteReviews
  simp only []
  repeat' split
  all_goals first
    | exact Or.inl rfl
    | exact Or.inr ⟨_, rfl⟩

theorem postOrders_state (s : Store) (r : OrderCreateReq) (i n : String) :
    (postOrders s r i n).2 = s ∨
      ∃ v, (postOrders s r i n).2 = { s with orders := v } := by
  unfold postOrders
  simp only []
  repeat' split
  all_goals first
    | exact Or.inl rfl
    | exact Or.inr ⟨_, rfl⟩

theorem putOrders_state (s : Store) (id : String) (r : OrderUpdateReq) (n : String) :
    (putOrders s id r n).2 = s ∨
      ∃ v, (putOrders s id r n).2 = { s with orders := v } := by
  unfold putOrders
  simp only []
  repeat' split
  all_goals first
    | exact Or.inl rfl
    | exact Or.inr ⟨_, rfl⟩

theorem deleteOrders_state (s : Store) (id : String) :
    (deleteOrders s id).2 = s ∨
      ∃ v, (deleteOrders s id).2 = { s with orders := v } := by
  unfold deleteOrders
  simp only []
  repeat' split
  all_goals first
    | exact Or.inl rfl
    | exact Or.inr ⟨_, rfl⟩

theorem createCoupon_state (s : Store) (r : CouponCreateReq) (i n : String) :
    (createCoupon s r i n).2 = s ∨
      ∃ v, (createCoupon s r i n).2 = { s with coupons := v } := by
  unfold createCoupon
  simp only []
  repeat' split
  all_goals first
    | exact Or.inl rfl
    | exact Or.inr ⟨_, rfl⟩

theorem putCoupons_state (s : Store) (id : String) (r : CouponUpdateReq) (n : String) :
    (putCoupons s id r n).2 = s ∨
      ∃ v, (putCoupons s id r n).2 = { s with coupons := v } := by
  unfold putCoupons
  simp only []
  repeat' split
  all_goals first
    | exact Or.inl rfl
    | exact Or.inr ⟨_, rfl⟩

theorem deleteCoupons_state (s : Store) (id : String) :
    (deleteCoupons s id).2 = s ∨
      ∃ v, (deleteCoupons s id).2 = { s with coupons := v } := by
  unfold deleteCoupons
  simp only []
  repeat' split
  all_goals first
    | exact Or.inl rfl
    | exact Or.inr ⟨_, rfl⟩

theorem getAuthorById_state (s : Store) (id : String) :
    (getAuthorById s id).2 = s := by
  unfold getAuthorById; split <;> rfl

theorem getBookById_state (s : Store) (id : String) (e : Option (List String)) :
    (getBookById s id e).2 = s := by
  unfold getBookById; repeat' split
  all_goals rfl

theorem getBooks_state (s : Store) (e : Option (List String)) :
    (getBooks s e).2 = s := by
  unfold getBooks; split <;> rfl

theorem getUserById_state (s : Store) (id : String) :
    (getUserById s id).2 = s := by
  unfold getUserById; split <;> rfl

theorem getCategoryById_state (s : Store) (id : String) :
    (getCategoryById s id).2 = s := by
  unfold getCategoryById; split <;> rfl

theorem getPublisherById_state (s : Store) (id : String) :
    (getPublisherById s id).2 = s := by
  unfold getPublisherById; split <;> rfl

theorem getReviews_state (s : Store) (e : Option (List String)) :
    (getReviews s e).2 = s := by
  unfold getReviews; split <;> rfl

theorem getReviewById_state (s : Store) (id : String) :
    (getReviewById s id).2 = s := by
  unfold getReviewById; split <;> rfl

theorem getOrderById_state (s : Store) (id : String) :
    (getOrderById s id).2 = s := by
  unfold getOrderById; split <;> rfl

theorem getCouponById_state (s : Store) (id : String) :
    (getCouponById s id).2 = s := by
  unfold getCouponById; split <;> rfl

/-! ## Field-step lemmas for the PUT handlers -/

theorem stepBookTitle_ok {r : BookUpdateReq} {b b' : Book}
    (h : stepBookTitle r b = .ok b') :
    b'.id = b.id ∧ b'.authorId = b.authorId ∧ b'.categoryId = b.categoryId ∧
      b'.publisherId = b.publisherId ∧ b'.price = b.price := by
  unfold stepBookTitle at h
  split at h
  · cases h; exact ⟨rfl, rfl, rfl, rfl, rfl⟩
  · split at h
    · exact Except.noConfusion h
    · cases h; exact ⟨rfl, rfl, rfl, rfl, rfl⟩

theorem stepBookDescription_proj (r : BookUpdateReq) (b : Book) :
    (stepBookDescription r b).id = b.id ∧
      (stepBookDescription r b).authorId = b.authorId ∧
      (stepBookDescription r b).categoryId = b.categoryId ∧
      (stepBookDescription r b).publisherId = b.publisherId ∧
      (stepBookDescription r b).price = b.price := by
  unfold stepBookDescription
  split <;> exact ⟨rfl, rfl, rfl, rfl, rfl⟩

theorem stepBookPrice_ok {r : BookUpdateReq} {b b' : Book}
    (h : stepBookPrice r b = .ok b') :
    b'.id = b.id ∧ b'.authorId = b.authorId ∧ b'.categoryId = b.categoryId ∧
      b'.publisherId = b.publisherId := by
  unfold stepBookPrice at h
  split at h
  · cases h; exact ⟨rfl, rfl, rfl, rfl⟩
  · split at h
    · exact Except.noConfusion h
    · cases h; exact ⟨rfl, rfl, rfl, rfl⟩

theorem stepBookFile_proj (r : BookUpdateReq) (b : Book) :
    (stepBookFile r b).id = b.id ∧ (stepBookFile r b).authorId = b.authorId ∧
      (stepBookFile r b).categoryId = b.categoryId ∧
      (stepBookFile r b).publisherId = b.publisherId ∧
      (stepBookFile r b).price = b.price := by
  unfold stepBookFile
  split <;> exact ⟨rfl, rfl, rfl, rfl, rfl⟩

theorem stepBookAuthorId_ok {s : Store} {r : BookUpdateReq} {b b' : Book}
    (h : stepBookAuthorId s r b = .ok b') :
    b'.id = b.id ∧ b'.categoryId = b.categoryId ∧
      b'.publisherId = b.publisherId ∧ b'.price = b.price ∧
      (b'.authorId = b.authorId ∨ ∃ a ∈ s.authors, a.id = b'.authorId) := by
  unfold stepBookAuthorId at h
  split at h
  · cases h; exact ⟨rfl, rfl, rfl, rfl, Or.inl rfl⟩
  · rename_i v hveq
    split at h
    · exact Except.noConfusion h
    · split at h
      · exact Except.noConfusion h
      · rename_i h2
        cases h
        refine ⟨rfl, rfl, rfl, rfl, Or.inr ?_⟩
        have hany : s.authors.any (fun a => a.id == v.getD "") = true := by
          simpa using h2
        obtain ⟨a, ha, hid⟩ := List.any_eq_true.mp hany
        exact ⟨a, ha, by simpa using hid⟩

theorem stepBookCategoryId_ok {s : Store} {r : BookUpdateReq} {b b' : Book}
    (h : stepBookCategoryId s r b = .ok b') :
    b'.id = b.id ∧ b'.authorId = b.authorId ∧
      b'.publisherId = b.publisherId ∧ b'.price = b.price := by
  unfold stepBookCategoryId at h
  split at h
  · cases h; exact ⟨rfl, rfl, rfl, rfl⟩
  · split at h
    · exact Except.noConfusion h
    · split at h
      · exact Except.noConfusion h
      · cases h; exact ⟨rfl, rfl, rfl, rfl⟩

theorem stepBookPublisherId_ok {s : Store} {r : BookUpdateReq} {b b' : Book}
    (h : stepBookPublisherId s r b = .ok b') :
    b'.id = b.id ∧ b'.authorId = b.authorId ∧
      b'.categoryId = b.categoryId ∧ b'.price = b.price := by
  unfold stepBookPublisherId at h
  split at h
  · cases h; exact ⟨rfl, rfl, rfl, rfl⟩
  · split at h
    · exact Except.noConfusion h
    · split at h
      · exact Except.noConfusion h
      · cases h; exact ⟨rfl, rfl, rfl, rfl⟩

/-- A successful PUT /books/:id leaves the book's authorId either untouched
or pointing at an existing Author. -/
theorem putBooksFields_authorId {s : Store} {r : BookUpdateReq} {b0 b : Book}
    (h : putBooksFields s r b0 = .ok b) :
    b.authorId = b0.authorId ∨ ∃ a ∈ s.authors, a.id = b.authorId := by
  unfold putBooksFields at h
  cases h1 : stepBookTitle r b0 with
  | error m => rw [h1] at h; simp at h
  | ok b1 =>
    rw [h1] at h; rw [seqE_ok] at h
    cases h3 : stepBookPrice r (stepBookDescription r b1) with
    | error m => rw [h3] at h; simp at h
    | ok b3 =>
      rw [h3] at h; rw [seqE_ok] at h
      cases h5 : stepBookAuthorId s r (stepBookFile r b3) with
      | error m => rw [h5] at h; simp at h
      | ok b5 =>
        rw [h5] at h; rw [seqE_ok] at h
        cases h6 : stepBookCategoryId s r b5 with
        | error m => rw [h6] at h; simp at h
        | ok b6 =>
          rw [h6] at h; rw [seqE_ok] at h
          have e1 := (stepBookTitle_ok h1).2.1
          have e2 := (stepBookDescription_proj r b1).2.1
          have e3 := (stepBookPrice_ok h3).2.1
          have e4 := (stepBookFile_proj r b3).2.1
          have e5 := (stepBookAuthorId_ok h5).2.2.2.2
          have e6 := (stepBookCategoryId_ok h6).2.1
          have e7 := (stepBookPublisherId_ok h).2.1
          rcases e5 with e5 | ⟨a, ha, hid⟩
          · left
            rw [e7, e6, e5, e4, e3, e2, e1]
          · right
            exact ⟨a, ha, by rw [hid, ← e6, ← e7]⟩

theorem stepAuthorName_ok {r : AuthorUpdateReq} {a a' : Author}
    (h : stepAuthorName r a = .ok a') : a'.id = a.id := by
  unfold stepAuthorName at h
  split at h
  · cases h; rfl
  · split at h
    · exact Except.noConfusion h
    · cases h; rfl

theorem stepAuthorBiography_id (r : AuthorUpdateReq) (a : Author) :
    (stepAuthorBiography r a).id = a.id := by
  unfold stepAuthorBiography
  split <;> rfl

theorem stepAuthorNationality_id (r : AuthorUpdateReq) (a : Author) :
    (stepAuthorNationality r a).id = a.id := by
  unfold stepAuthorNationality
  split <;> rfl

/-- PUT /authors/:id never changes the author's id. -/
theorem putAuthorsFields_id {r : AuthorUpdateReq} {a0 a : Author}
    (h : putAuthorsFields r a0 = .ok a) : a.id = a0.id := by
  unfold putAuthorsFields at h
  cases h1 : stepAuthorName r a0 with
  | error m => rw [h1] at h; simp at h
  | ok a1 =>
    rw [h1] at h; rw [seqE_ok] at h
    cases h
    rw [stepAuthorNationality_id, stepAuthorBiography_id, stepAuthorName_ok h1]

/-! ## Referential integrity of Book.authorId (claim C1) -/

/-- Invariant: every Book's authorId is the id of an existing Author. -/
def booksResolve (s : Store) : Prop :=
  ∀ b ∈ s.books, ∃ a ∈ s.authors, a.id = b.authorId

instance booksResolveDecidable (s : Store) : Decidable (booksResolve s) := by
  unfold booksResolve
  exact inferInstance

theorem findWithIdx_isSome_of_mem {p : α → Bool} {l : List α} {x : α}
    (hx : x ∈ l) (hp : p x = true) : ∃ i y, findWithIdx p l = some (i, y) := by
  cases hf : findWithIdx p l with
  | some iy => exact ⟨iy.1, iy.2, by simp⟩
  | none => exact absurd (findWithIdx_eq_none.mp hf x hx) (by simp [hp])

theorem booksResolve_postAuthors (s : Store) (r : AuthorCreateReq) (i n : String)
    (h : booksResolve s) : booksResolve (postAuthors s r i n).2 := by
  unfold postAuthors
  split
  · exact h
  · intro b hb
    obtain ⟨a, ha, hid⟩ := h b hb
    exact ⟨a, List.mem_append_left _ ha, hid⟩

theorem booksResolve_putAuthors (s : Store) (id : String) (r : AuthorUpdateReq)
    (n : String) (h : booksResolve s) : booksResolve (putAuthors s id r n).2 := by
  unfold putAuthors
  split
  · exact h
  · rename_i idx a0 hfind
    split
    · exact h
    · rename_i a hok
      intro b hb
      have hget : s.authors[idx]? = some a0 := (findWithIdx_spec hfind).1
      have hid0 : a.id = a0.id := putAuthorsFields_id hok
      have hid : ({ a with updatedAt := some n } : Author).id = a0.id := hid0
      exact exists_key_set Author.id hget hid (h b hb)

theorem booksResolve_deleteAuthors (s : Store) (id : String)
    (h : booksResolve s) : booksResolve (deleteAuthors s id).2 := by
  unfold deleteAuthors
  simp only []
  split
  · exact h
  · rename_i hguard
    split
    · exact h
    · intro b hb
      obtain ⟨a, ha, hid⟩ := h b hb
      refine ⟨a, List.mem_filter.mpr ⟨ha, ?_⟩, hid⟩
      have hne : b.authorId ≠ id := by
        intro heq
        exact hguard (List.any_eq_true.mpr ⟨b, hb, by simp [heq]⟩)
      simp only [bne_iff_ne, ne_eq, hid]
      exact hne

theorem booksResolve_postBooks (s : Store) (r : BookCreateReq) (i n : String)
    (h : booksResolve s) : booksResolve (postBooks s r i n).2 := by
  unfold postBooks
  split
  · exact h
  split
  · exact h
  split
  · exact h
  split
  · exact h
  rename_i hfound
  split
  · exact h
  intro b hb
  rcases List.mem_append.mp hb with hb | hb
  · exact h b hb
  · have hbe := List.mem_singleton.mp hb
    subst hbe
    cases hf : s.authors.find? (fun a => a.id == r.authorId.getD "") with
    | none => exact absurd hf (by simpa using hfound)
    | some a =>
        exact ⟨a, List.mem_of_find?_eq_some hf, by simpa using List.find?_some hf⟩

theorem booksResolve_putBooks (s : Store) (id : String) (r : BookUpdateReq)
    (n : String) (h : booksResolve s) : booksResolve (putBooks s id r n).2 := by
  unfold putBooks
  split
  · exact h
  rename_i idx b0 hfind
  split
  · exact h
  rename_i b hok
  intro x hx
  rcases List.mem_or_eq_of_mem_set hx with hx | hx
  · exact h x hx
  · subst hx
    have hget : s.books[idx]? = some b0 := (findWithIdx_spec hfind).1
    have hb0mem : b0 ∈ s.books := List.getElem?_mem hget
    rcases putBooksFields_authorId hok with he | ⟨a, ha, hid⟩
    · obtain ⟨a, ha, hid⟩ := h b0 hb0mem
      refine ⟨a, ha, ?_⟩
      show a.id = b.authorId
      rw [hid, ← he]
    · exact ⟨a, ha, hid⟩

theorem booksResolve_deleteBooks (s : Store) (id : String)
    (h : booksResolve s) : booksResolve (deleteBooks s id).2 := by
  unfold deleteBooks
  simp only []
  split
  · exact h
  · intro b hb
    exact h b (List.mem_filter.mp hb).1

/-- The invariant is preserved by every operation of the API. -/
theorem booksResolve_applyOp (s : Store) (op : Op) (h : booksResolve s) :
    booksResolve (applyOp s op) := by
  cases op with
  | postAuthors r i n => exact booksResolve_postAuthors s r i n h
  | getAuthors => exact h
  | getAuthorById id =>
      show booksResolve (getAuthorById s id).2
      rw [getAuthorById_state]; exact h
  | putAuthors id r n => exact booksResolve_putAuthors s id r n h
  | deleteAuthors id => exact booksResolve_deleteAuthors s id h
  | postBooks r i n => exact booksResolve_postBooks s r i n h
  | getBooks e =>
      show booksResolve (getBooks s e).2
      rw [getBooks_state]; exact h
  | getBookById id e =>
      show booksResolve (getBookById s id e).2
      rw [getBookById_state]; exact h
  | putBooks id r n => exact booksResolve_putBooks s id r n h
  | deleteBooks id => exact booksResolve_deleteBooks s id h
  | postUsers r i n =>
      show booksResolve (postUsers s r i n).2
      rcases postUsers_state s r i n with hs | ⟨v, hs⟩ <;> rw [hs] <;> exact h
  | getUsers => exact h
  | getUserById id =>
      show booksResolve (getUserById s id).2
      rw [getUserById_state]; exact h
  | putUsers id r n =>
      show booksResolve (putUsers s id r n).2
      rcases putUsers_state s id r n with hs | ⟨v, hs⟩ <;> rw [hs] <;> exact h
  | deleteUsers id =>
      show booksResolve (deleteUsers s id).2
      rcases deleteUsers_state s id with hs | ⟨v, hs⟩ <;> rw [hs] <;> exact h
  | postCategories r i n =>
      show booksResolve (postCategories s r i n).2
      rcases postCategories_state s r i n with hs | ⟨v, hs⟩ <;> rw [hs] <;> exact h
  | getCategories => exact h
  | getCategoryById id =>
      show booksResolve (getCategoryById s id).2
      rw [getCategoryById_state]; exact h
  | putCategories id r n =>
      show booksResolve (putCategories s id r n).2
      rcases putCategories_state s id r n with hs | ⟨v, hs⟩ <;> rw [hs] <;> exact h
  | deleteCategories id =>
      show booksResolve (deleteCategories s id).2
      rcases deleteCategories_state s id with hs | ⟨v, hs⟩ <;> rw [hs] <;> exact h
  | postPublishers r i n =>
      show booksResolve (postPublishers s r i n).2
      rcases postPublishers_state s r i n with hs | ⟨v, hs⟩ <;> rw [hs] <;> exact h
  | getPublishers => exact h
  | getPublisherById id =>
      show booksResolve (getPublisherById s id).2
      rw [getPublisherById_state]; exact h
  | putPublishers id r n =>
      show booksResolve (putPublishers s id r n).2
      rcases putPublishers_state s id r n with hs | ⟨v, hs⟩ <;> rw [hs] <;> exact h
  | deletePublishers id =>
      show booksResolve (deletePublishers s id).2
      rcases deletePublishers_state s id with hs | ⟨v, hs⟩ <;> rw [hs] <;> exact h
  | postReviews r i n =>
      show booksResolve (postReviews s r i n).2
      rcases postReviews_state s r i n with hs | ⟨v, hs⟩ <;> rw [hs] <;> exact h
  | getReviews e =>
      show booksResolve (getReviews s e).2
      rw [getReviews_state]; exact h
  | getReviewById id =>
      show booksResolve (getReviewById s id).2
      rw [getReviewById_state]; exact h
  | putReviews id r n =>
      show booksResolve (putReviews s id r n).2
      rcases putReviews_state s id r n with hs | ⟨v, hs⟩ <;> rw [hs] <;> exact h
  | deleteReviews id =>
      show booksResolve (deleteReviews s id).2
      rcases deleteReviews_state s id with hs | ⟨v, hs⟩ <;> rw [hs] <;> exact h
  | postOrders r i n =>
      show booksResolve (postOrders s r i n).2
      rcases postOrders_state s r i n with hs | ⟨v, hs⟩ <;> rw [hs] <;> exact h
  | getOrders => exact h
  | getOrderById id =>
      show booksResolve (getOrderById s id).2
      rw [getOrderById_state]; exact h
  | putOrders id r n =>
      show booksResolve (putOrders s id r n).2
      rcases putOrders_state s id r n with hs | ⟨v, hs⟩ <;> rw [hs] <;> exact h
  | deleteOrders id =>
      show booksResolve (deleteOrders s id).2
      rcases deleteOrders_state s id with hs | ⟨v, hs⟩ <;> rw [hs] <;> exact h
  | createCoupon r i n =>
      show booksResolve (createCoupon s r i n).2
      rcases createCoupon_state s r i n with hs | ⟨v, hs⟩ <;> rw [hs] <;> exact h
  | getCoupons => exact h
  | getCouponById id =>
      show booksResolve (getCouponById s id).2
      rw [getCouponById_state]; exact h
  | putCoupons id r n =>
      show booksResolve (putCoupons s id r n).2
      rcases putCoupons_state s id r n with hs | ⟨v, hs⟩ <;> rw [hs] <;> exact h
  | deleteCoupons id =>
      show booksResolve (deleteCoupons s id).2
      rcases deleteCoupons_state s id with hs | ⟨v, hs⟩ <;> rw [hs] <;> exact h

theorem stepBookTitle_isOk {r : BookUpdateReq} (b : Book)
    (hT : r.title = none ∨ ∃ v, r.title = some v ∧ isValidStringO v = true) :
    ∃ b', stepBookTitle r b = .ok b' := by
  unfold stepBookTitle
  rcases hT with hT | ⟨v, hT, hv⟩
  · rw [hT]; exact ⟨b, rfl⟩
  · rw [hT]
    exact ⟨{ b with title := jsTrim (v.getD "") }, by simp [hv]⟩

theorem stepBookPrice_isOk {r : BookUpdateReq} (b : Book)
    (hP : r.price = none ∨ ∃ v, r.price = some v ∧ isValidPriceO v = true) :
    ∃ b', stepBookPrice r b = .ok b' := by
  unfold stepBookPrice
  rcases hP with hP | ⟨v, hP, hv⟩
  · rw [hP]; exact ⟨b, rfl⟩
  · rw [hP]
    exact ⟨{ b with price := v.getD 0 }, by simp [hv]⟩

theorem stepBookAuthorId_dangling {s : Store} {r : BookUpdateReq} {aid : String}
    (b : Book) (hA : r.authorId = some (some aid)) (hv : jsTrim aid ≠ "")
    (hn : ∀ a ∈ s.authors, a.id ≠ aid) :
    stepBookAuthorId s r b = .error "Autor não encontrado (authorId inválido)." := by
  unfold stepBookAuthorId
  rw [hA]
  simp only [isValidStringO, Option.getD_some]
  have hval : (jsTrim aid != "") = true := by simpa using hv
  rw [hval]
  have hany : (s.authors.any (fun a => a.id == aid)) = false := by
    rw [List.any_eq_false]
    intro a ha
    simp [hn a ha]
  simp [hany]

/-- Demo data shared by the concrete witnesses. -/
def storeEmpty : Store :=
  { authors := [], books := [], users := [], categories := [],
    publishers := [], reviews := [], orders := [], coupons := [] }

def authorA : Author :=
  { id := "a1", name := "Ana", biography := "", nationality := none,
    createdAt := "t0" }

def bookB : Book :=
  { id := "b1", title := "T", description := "", price := 10, file := none,
    authorId := "a1", categoryId := none, publisherId := none,
    createdAt := "t0" }

def storeAB : Store :=
  { storeEmpty with authors := [authorA], books := [bookB] }

/-- C1: a create(Book) or update(Book) whose (well-formed) authorId matches
no existing Author fails with the dangling-reference error and leaves the
persisted document unchanged; with a resolving authorId the create proceeds;
and the "every Book's authorId resolves to an existing Author" invariant is
preserved by every operation of the API. -/
theorem C1_book_author_integrity :
    (∀ (s : Store) (r : BookCreateReq) (newId now aid : String),
      isValidStringO r.title = true →
      isValidPriceO r.price = true →
      r.authorId = some aid →
      jsTrim aid ≠ "" →
      (∀ a ∈ s.authors, a.id ≠ aid) →
      postBooks s r newId now =
        (.badRequest "Autor não encontrado (authorId inválido).", s)) ∧
    (∀ (s : Store) (bid : String) (r : BookUpdateReq) (now aid : String),
      (∃ b0 ∈ s.books, b0.id = bid) →
      (r.title = none ∨ ∃ v, r.title = some v ∧ isValidStringO v = true) →
      (r.price = none ∨ ∃ v, r.price = some v ∧ isValidPriceO v = true) →
      r.authorId = some (some aid) →
      jsTrim aid ≠ "" →
      (∀ a ∈ s.authors, a.id ≠ aid) →
      putBooks s bid r now =
        (.badRequest "Autor não encontrado (authorId inválido).", s)) ∧
    (∀ (s : Store) (r : BookCreateReq) (newId now aid : String),
      isValidStringO r.title = true →
      isValidPriceO r.price = true →
      r.authorId = some aid →
      jsTrim aid ≠ "" →
      (∃ a ∈ s.authors, a.id = aid) →
      (jsTruthyO r.publisherId = true →
        ∃ p ∈ s.publishers, p.id = r.publisherId.getD "") →
      ∃ b, postBooks s r newId now = (.ok b, { s with books := s.books ++ [b] }) ∧
        b.authorId = aid) ∧
    (∀ (s : Store) (op : Op), booksResolve s → booksResolve (applyOp s op)) := by
  refine ⟨?_, ?_, ?_, fun s op h => booksResolve_applyOp s op h⟩
  · intro s r newId now aid hT hP hA hv hn
    have hval : isValidStringO r.authorId = true := by
      rw [hA]; simpa [isValidStringO] using hv
    have hfind : s.authors.find? (fun a => a.id == r.authorId.getD "") = none := by
      rw [List.find?_eq_none]
      intro a ha
      rw [hA]
      simpa using hn a ha
    unfold postBooks
    simp [hT, hP, hval, hfind]
  · intro s bid r now aid hex hT hP hA hv hn
    obtain ⟨b0, hb0mem, hb0id⟩ := hex
    obtain ⟨i, y, hfind⟩ :=
      findWithIdx_isSome_of_mem (p := fun b => b.id == bid) hb0mem (by simp [hb0id])
    obtain ⟨b1, h1⟩ := stepBookTitle_isOk y hT
    obtain ⟨b3, h3⟩ := stepBookPrice_isOk (stepBookDescription r b1) hP
    have h5 := stepBookAuthorId_dangling (s := s) (r := r) (stepBookFile r b3) hA hv hn
    have hfields : putBooksFields s r y =
        .error "Autor não encontrado (authorId inválido)." := by
      unfold putBooksFields
      rw [h1, seqE_ok, h3, seqE_ok, h5, seqE_error]
    unfold putBooks
    simp only [hfind, hfields]
  · intro s r newId now aid hT hP hA hv hres hpub
    have hval : isValidStringO r.authorId = true := by
      rw [hA]; simpa [isValidStringO] using hv
    have hfindA : (s.authors.find? (fun a => a.id == r.authorId.getD "")).isNone = false := by
      obtain ⟨a, ha, haid⟩ := hres
      cases hf : s.authors.find? (fun a => a.id == r.authorId.getD "") with
      | none =>
          have := List.find?_eq_none.mp hf a ha
          rw [hA] at this
          simp [haid] at this
      | some x => rfl
    have hpubc : (jsTruthyO r.publisherId &&
        (s.publishers.find? (fun p => p.id == r.publisherId.getD "")).isNone) = false := by
      cases htr : jsTruthyO r.publisherId with
      | false => simp
      | true =>
          obtain ⟨p, hp, hpid⟩ := hpub htr
          cases hf : s.publishers.find? (fun q => q.id == r.publisherId.getD "") with
          | none =>
              have := List.find?_eq_none.mp hf p hp
              simp [hpid] at this
          | some x => simp
    refine ⟨{ id := newId, title := jsTrim (r.title.getD ""),
              description := jsStrOrEmpty r.description, price := r.price.getD 0,
              file := jsOrNull r.file, authorId := r.authorId.getD "",
              categoryId := jsOrNull r.categoryId,
              publisherId := jsOrNull r.publisherId, createdAt := now,
              updatedAt := none }, ?_, by rw [hA]; rfl⟩
    unfold postBooks
    simp [hT, hP, hval, hfindA, hpubc]

/-- Concrete instantiation of every hypothesis of C1_book_author_integrity. -/
theorem C1_book_author_integrity_witness :
    postBooks storeEmpty
        { title := some "T", price := some 10, authorId := some "zz" } "b9" "t1" =
      (.badRequest "Autor não encontrado (authorId inválido).", storeEmpty) ∧
    putBooks storeAB "b1" { authorId := some (some "zz") } "t1" =
      (.badRequest "Autor não encontrado (authorId inválido).", storeAB) ∧
    (∃ b, postBooks storeAB
        { title := some "T2", price := some 5, authorId := some "a1" } "b2" "t1" =
      (.ok b, { storeAB with books := storeAB.books ++ [b] }) ∧
      b.authorId = "a1") ∧
    booksResolve (applyOp storeAB (Op.getBooks (some ["author"]))) :=
  ⟨C1_book_author_integrity.1 storeEmpty _ "b9" "t1" "zz"
      (by decide) (by decide) rfl (by decide) (by decide),
   C1_book_author_integrity.2.1 storeAB "b1" _ "t1" "zz"
      (by decide) (Or.inl rfl) (Or.inl rfl) rfl (by decide) (by decide),
   C1_book_author_integrity.2.2.1 storeAB _ "b2" "t1" "a1"
      (by decide) (by decide) rfl (by decide) (by decide) (by decide),
   C1_book_author_integrity.2.2.2 storeAB (Op.getBooks (some ["author"]))
      (by decide)⟩

/-! ## Delete guards for Author / Category / Publisher (claim C2) -/

def categoryC : Category := { id := "c1", name := "C", createdAt := "t0" }

def publisherP : Publisher :=
  { id := "p1", name := "P", foundationYear := none, createdAt := "t0" }

def storeA2 : Store := { storeEmpty with authors := [authorA] }

def bookBC : Book := { bookB with id := "b2", categoryId := some "c1" }

def bookBP : Book := { bookB with id := "b3", publisherId := some "p1" }

def storeC : Store :=
  { storeEmpty with books := [bookBC], categories := [categoryC] }

def storeC2 : Store := { storeEmpty with categories := [categoryC] }

def storeP : Store :=
  { storeEmpty with books := [bookBP], publishers := [publisherP] }

def storeP2 : Store := { storeEmpty with publishers := [publisherP] }

/-- C2: deleting an Author/Category/Publisher fails with the
referenced-by-a-Book error when some Book holds its id in the corresponding
foreign key (store untouched); with no referencing Book it removes the record
and persists when the id exists, and reports not-found when it does not. -/
theorem C2_delete_reference_guards :
    (∀ (s : Store) (id : String),
      (∃ b ∈ s.books, b.authorId = id) →
      deleteAuthors s id =
        (.badRequest "Autor está associado a um livro e não pode ser excluído.", s)) ∧
    (∀ (s : Store) (id : String),
      (∀ b ∈ s.books, b.authorId ≠ id) →
      (∃ a ∈ s.authors, a.id = id) →
      deleteAuthors s id =
        (.noContent, { s with authors := s.authors.filter (fun a => a.id != id) })) ∧
    (∀ (s : Store) (id : String),
      (∀ b ∈ s.books, b.authorId ≠ id) →
      (∀ a ∈ s.authors, a.id ≠ id) →
      deleteAuthors s id = (.notFound "Autor não encontrado", s)) ∧
    (∀ (s : Store) (id : String),
      (∃ b ∈ s.books, b.categoryId = some id) →
      deleteCategories s id =
        (.badRequest "Categoria está associada a um livro e não pode ser excluída.", s)) ∧
    (∀ (s : Store) (id : String),
      (∀ b ∈ s.books, b.categoryId ≠ some id) →
      (∃ c ∈ s.categories, c.id = id) →
      deleteCategories s id =
        (.noContent, { s with categories := s.categories.filter (fun c => c.id != id) })) ∧
    (∀ (s : Store) (id : String),
      (∀ b ∈ s.books, b.categoryId ≠ some id) →
      (∀ c ∈ s.categories, c.id ≠ id) →
      deleteCategories s id = (.notFound "Categoria não encontrada", s)) ∧
    (∀ (s : Store) (id : String),
      (∃ b ∈ s.books, b.publisherId = some id) →
      deletePublishers s id =
        (.badRequest "Editora está associada a um livro e não pode ser excluída.", s)) ∧
    (∀ (s : Store) (id : String),
      (∀ b ∈ s.books, b.publisherId ≠ some id) →
      (∃ p ∈ s.publishers, p.id = id) →
      deletePublishers s id =
        (.noContent, { s with publishers := s.publishers.filter (fun p => p.id != id) })) ∧
    (∀ (s : Store) (id : String),
      (∀ b ∈ s.books, b.publisherId ≠ some id) →
      (∀ p ∈ s.publishers, p.id ≠ id) →
      deletePublishers s id = (.notFound "Editora não encontrada", s)) := by
  refine ⟨?_, ?_, ?_, ?_, ?_, ?_, ?_, ?_, ?_⟩
  · intro s id hex
    obtain ⟨b, hb, hid⟩ := hex
    unfold deleteAuthors
    have hany : s.books.any (fun b => b.authorId == id) = true :=
      List.any_eq_true.mpr ⟨b, hb, by simp [hid]⟩
    simp [hany]
  · intro s id hn hex
    obtain ⟨a, ha, haid⟩ := hex
    unfold deleteAuthors
    have hany : s.books.any (fun b => b.authorId == id) = false := by
      rw [List.any_eq_false]
      intro b hb
      simp [hn b hb]
    have hlen : (s.authors.filter (fun a => a.id != id)).length ≠ s.authors.length :=
      filter_ne_length_lt ha haid
    simp [hany, hlen]
  · intro s id hn ha
    unfold deleteAuthors
    have hany : s.books.any (fun b => b.authorId == id) = false := by
      rw [List.any_eq_false]
      intro b hb
      simp [hn b hb]
    have hlen : (s.authors.filter (fun a => a.id != id)).length = s.authors.length :=
      filter_ne_length_eq ha
    simp [hany, hlen]
  · intro s id hex
    obtain ⟨b, hb, hid⟩ := hex
    unfold deleteCategories
    have hany : s.books.any (fun b => b.categoryId == some id) = true :=
      List.any_eq_true.mpr ⟨b, hb, by simp [hid]⟩
    simp [hany]
  · intro s id hn hex
    obtain ⟨c, hc, hcid⟩ := hex
    unfold deleteCategories
    have hany : s.books.any (fun b => b.categoryId == some id) = false := by
      rw [List.any_eq_false]
      intro b hb
      simp [hn b hb]
    have hlen : (s.categories.filter (fun c => c.id != id)).length ≠ s.categories.length :=
      filter_ne_length_lt hc hcid
    simp [hany, hlen]
  · intro s id hn hc
    unfold deleteCategories
    have hany : s.books.any (fun b => b.categoryId == some id) = false := by
      rw [List.any_eq_false]
      intro b hb
      simp [hn b hb]
    have hlen : (s.categories.filter (fun c => c.id != id)).length = s.categories.length :=
      filter_ne_length_eq hc
    simp [hany, hlen]
  · intro s id hex
    obtain ⟨b, hb, hid⟩ := hex
    unfold deletePublishers
    have hany : s.books.any (fun b => b.publisherId == some id) = true :=
      List.any_eq_true.mpr ⟨b, hb, by simp [hid]⟩
    simp [hany]
  · intro s id hn hex
    obtain ⟨p, hp, hpid⟩ := hex
    unfold deletePublishers
    have hany : s.books.any (fun b => b.publisherId == some id) = false := by
      rw [List.any_eq_false]
      intro b hb
      simp [hn b hb]
    have hlen : (s.publishers.filter (fun p => p.id != id)).length ≠ s.publishers.length :=
      filter_ne_length_lt hp hpid
    simp [hany, hlen]
  · intro s id hn hp
    unfold deletePublishers
    have hany : s.books.any (fun b => b.publisherId == some id) = false := by
      rw [List.any_eq_false]
      intro b hb
      simp [hn b hb]
    have hlen : (s.publishers.filter (fun p => p.id != id)).length = s.publishers.length :=
      filter_ne_length_eq hp
    simp [hany, hlen]

/-- Concrete instantiation of every hypothesis of C2_delete_reference_guards. -/
theorem C2_delete_reference_guards_witness :
    deleteAuthors storeAB "a1" =
      (.badRequest "Autor está associado a um livro e não pode ser excluído.", storeAB) ∧
    deleteAuthors storeA2 "a1" =
      (.noContent, { storeA2 with
        authors := storeA2.authors.filter (fun a => a.id != "a1") }) ∧
    deleteAuthors storeEmpty "zz" = (.notFound "Autor não encontrado", storeEmpty) ∧
    deleteCategories storeC "c1" =
      (.badRequest "Categoria está associada a um livro e não pode ser excluída.", storeC) ∧
    deleteCategories storeC2 "c1" =
      (.noContent, { storeC2 with
        categories := storeC2.categories.filter (fun c => c.id != "c1") }) ∧
    deleteCategories storeEmpty "zz" =
      (.notFound "Categoria não encontrada", storeEmpty) ∧
    deletePublishers storeP "p1" =
      (.badRequest "Editora está associada a um livro e não pode ser excluída.", storeP) ∧
    deletePublishers storeP2 "p1" =
      (.noContent, { storeP2 with
        publishers := storeP2.publishers.filter (fun p => p.id != "p1") }) ∧
    deletePublishers storeEmpty "zz" =
      (.notFound "Editora não encontrada", storeEmpty) :=
  ⟨C2_delete_reference_guards.1 storeAB "a1" (by decide),
   C2_delete_reference_guards.2.1 storeA2 "a1" (by decide) (by decide),
   C2_delete_reference_guards.2.2.1 storeEmpty "zz" (by decide) (by decide),
   C2_delete_reference_guards.2.2.2.1 storeC "c1" (by decide),
   C2_delete_reference_guards.2.2.2.2.1 storeC2 "c1" (by decide) (by decide),
   C2_delete_reference_guards.2.2.2.2.2.1 storeEmpty "zz" (by decide) (by decide),
   C2_delete_reference_guards.2.2.2.2.2.2.1 storeP "p1" (by decide),
   C2_delete_reference_guards.2.2.2.2.2.2.2.1 storeP2 "p1" (by decide) (by decide),
   C2_delete_reference_guards.2.2.2.2.2.2.2.2 storeEmpty "zz" (by decide) (by decide)⟩

/-! ## Expansion semantics on Book reads (claim C3) -/

theorem attachIfTruthy_ne_null {α : Type} (v : Option (Option α)) :
    attachIfTruthy v ≠ JField.null := by
  match v with
  | none => exact fun h => JField.noConfusion h
  | some none => exact fun h => JField.noConfusion h
  | some (some a) => exact fun h => JField.noConfusion h

def bookDangling : Book := { bookB with id := "bd", authorId := "ghost" }

def storeDangling : Store := { storeEmpty with books := [bookDangling] }

/-- C3 counterexample: on a list(Book) read with expansion set containing
"author", a Book whose authorId resolves to no Author comes back WITHOUT an
author field (the spread of a null guard adds nothing), not with an author
field whose value is null as the claim states; the two serialized shapes are
distinct. -/
theorem C3_counterexample_expand_null_omitted :
    (getBooks storeDangling (some ["author"])).1 =
      .ok [{ book := bookDangling, author := JField.absent,
             category := JField.absent, publisher := JField.absent }] ∧
    (JField.absent : JField Author) ≠ JField.null := by
  exact ⟨by decide, by decide⟩

/-- C3 amended: for Book reads (list or getById) with an expansion set
containing a recognized relation name, the response record carries that
relation field exactly when the reference resolves (holding the resolved
record); when the reference is null or unresolved the field is omitted
entirely (never attached as null), and the request still does not fail and
leaves the store unchanged. -/
theorem C3_expand_resolved_or_omitted :
    (∀ (s : Store) (e : List String) (b : Book) (a : Author),
      e.contains "author" = true →
      s.authors.find? (fun a => a.id == b.authorId) = some a →
      (expandBook s e b).author = JField.val a) ∧
    (∀ (s : Store) (e : List String) (b : Book),
      e.contains "author" = true →
      s.authors.find? (fun a => a.id == b.authorId) = none →
      (expandBook s e b).author = JField.absent) ∧
    (∀ (s : Store) (e : List String) (b : Book) (c : Category),
      e.contains "category" = true →
      s.categories.find? (fun c => some c.id == b.categoryId) = some c →
      (expandBook s e b).category = JField.val c) ∧
    (∀ (s : Store) (e : List String) (b : Book),
      e.contains "category" = true →
      s.categories.find? (fun c => some c.id == b.categoryId) = none →
      (expandBook s e b).category = JField.absent) ∧
    (∀ (s : Store) (e : List String) (b : Book) (p : Publisher),
      e.contains "publisher" = true →
      s.publishers.find? (fun p => some p.id == b.publisherId) = some p →
      (expandBook s e b).publisher = JField.val p) ∧
    (∀ (s : Store) (e : List String) (b : Book),
      e.contains "publisher" = true →
      s.publishers.find? (fun p => some p.id == b.publisherId) = none →
      (expandBook s e b).publisher = JField.absent) ∧
    (∀ (s : Store) (e : List String) (b : Book),
      (expandBook s e b).author ≠ JField.null ∧
      (expandBook s e b).category ≠ JField.null ∧
      (expandBook s e b).publisher ≠ JField.null) ∧
    (∀ (s : Store) (e : Option (List String)),
      getBooks s e = (.ok (match e with
        | none => s.books.map plainBook
        | some e0 => s.books.map (expandBook s e0)), s)) ∧
    (∀ (s : Store) (id : String) (e : List String) (b : Book),
      s.books.find? (fun b => b.id == id) = some b →
      getBookById s id (some e) = (.ok (expandBook s e b), s)) := by
  refine ⟨?_, ?_, ?_, ?_, ?_, ?_, ?_, ?_, ?_⟩
  · intro s e b a hc hf
    have hm : "author" ∈ e := by simpa using hc
    simp [expandBook, hm, hf, attachIfTruthy]
  · intro s e b hc hf
    have hm : "author" ∈ e := by simpa using hc
    simp [expandBook, hm, hf, attachIfTruthy]
  · intro s e b c hc hf
    have hm : "category" ∈ e := by simpa using hc
    simp [expandBook, hm, hf, attachIfTruthy]
  · intro s e b hc hf
    have hm : "category" ∈ e := by simpa using hc
    simp [expandBook, hm, hf, attachIfTruthy]
  · intro s e b p hc hf
    have hm : "publisher" ∈ e := by simpa using hc
    simp [expandBook, hm, hf, attachIfTruthy]
  · intro s e b hc hf
    have hm : "publisher" ∈ e := by simpa using hc
    simp [expandBook, hm, hf, attachIfTruthy]
  · intro s e b
    refine ⟨?_, ?_, ?_⟩ <;> exact attachIfTruthy_ne_null _
  · intro s e
    cases e <;> rfl
  · intro s id e b hf
    unfold getBookById
    rw [hf]

/-- Concrete instantiation of the hypotheses of
C3_expand_resolved_or_omitted. -/
theorem C3_expand_resolved_or_omitted_witness :
    (expandBook storeAB ["author"] bookB).author = JField.val authorA ∧
    (expandBook storeDangling ["author"] bookDangling).author = JField.absent ∧
    (expandBook storeC ["category"] bookBC).category = JField.val categoryC ∧
    (expandBook storeAB ["category"] bookB).category = JField.absent ∧
    (expandBook storeP ["publisher"] bookBP).publisher = JField.val publisherP ∧
    (expandBook storeAB ["publisher"] bookB).publisher = JField.absent ∧
    getBookById storeAB "b1" (some ["author"]) =
      (.ok (expandBook storeAB ["author"] bookB), storeAB) :=
  ⟨C3_expand_resolved_or_omitted.1 storeAB ["author"] bookB authorA
      (by decide) (by decide),
   C3_expand_resolved_or_omitted.2.1 storeDangling ["author"] bookDangling
      (by decide) (by decide),
   C3_expand_resolved_or_omitted.2.2.1 storeC ["category"] bookBC categoryC
      (by decide) (by decide),
   C3_expand_resolved_or_omitted.2.2.2.1 storeAB ["category"] bookB
      (by decide) (by decide),
   C3_expand_resolved_or_omitted.2.2.2.2.1 storeP ["publisher"] bookBP publisherP
      (by decide) (by decide),
   C3_expand_resolved_or_omitted.2.2.2.2.2.1 storeAB ["publisher"] bookB
      (by decide) (by decide),
   C3_expand_resolved_or_omitted.2.2.2.2.2.2.2.2 storeAB "b1" ["author"] bookB
      (by decide)⟩

/-! ## Reference validation of categoryId / publisherId (claim C4) -/

/-- The title field of a Book update request is absent or valid. -/
def titlePasses (r : BookUpdateReq) : Prop :=
  r.title = none ∨ ∃ v, r.title = some v ∧ isValidStringO v = true

/-- The price field of a Book update request is absent or valid. -/
def pricePasses (r : BookUpdateReq) : Prop :=
  r.price = none ∨ ∃ v, r.price = some v ∧ isValidPriceO v = true

/-- The authorId field of a Book update request is absent, or valid and
resolving. -/
def authorPasses (s : Store) (r : BookUpdateReq) : Prop :=
  r.authorId = none ∨ ∃ v, r.authorId = some v ∧ isValidStringO v = true ∧
    s.authors.any (fun a => a.id == v.getD "") = true

/-- The categoryId field of a Book update request is absent, or passes the
handler's two checks (well-formed when truthy; resolving when truthy). -/
def categoryPasses (s : Store) (r : BookUpdateReq) : Prop :=
  r.categoryId = none ∨ ∃ v, r.categoryId = some v ∧
    (jsTruthyO v && !isValidStringO v) = false ∧
    (jsTruthyO v = true → s.categories.any (fun c => c.id == v.getD "") = true)

/-- The publisherId field of a Book update request is absent, or passes the
handler's two checks. -/
def publisherPasses (s : Store) (r : BookUpdateReq) : Prop :=
  r.publisherId = none ∨ ∃ v, r.publisherId = some v ∧
    (jsTruthyO v && !isValidStringO v) = false ∧
    (jsTruthyO v = true → s.publishers.any (fun p => p.id == v.getD "") = true)

theorem stepBookAuthorId_isOk {s : Store} {r : BookUpdateReq} (b : Book)
    (h : authorPasses s r) : ∃ b', stepBookAuthorId s r b = .ok b' := by
  unfold stepBookAuthorId
  rcases h with h | ⟨v, hv, hval, hany⟩
  · rw [h]; exact ⟨b, rfl⟩
  · rw [hv]
    exact ⟨{ b with authorId := v.getD "" }, by simp [hval, hany]⟩

theorem stepBookCategoryId_isOk {s : Store} {r : BookUpdateReq} (b : Book)
    (h : categoryPasses s r) : ∃ b', stepBookCategoryId s r b = .ok b' := by
  unfold stepBookCategoryId
  rcases h with h | ⟨v, hv, hcond, hres⟩
  · rw [h]; exact ⟨b, rfl⟩
  · rw [hv]
    cases htr : jsTruthyO v with
    | false =>
        exact ⟨{ b with categoryId := jsOrNull v }, by simp [htr]⟩
    | true =>
        have hany := hres htr
        have hval : isValidStringO v = true := by simpa [htr] using hcond
        exact ⟨{ b with categoryId := jsOrNull v },
          by simp [hcond, htr, hany, hval]⟩

theorem stepBookPublisherId_isOk {s : Store} {r : BookUpdateReq} (b : Book)
    (h : publisherPasses s r) : ∃ b', stepBookPublisherId s r b = .ok b' := by
  unfold stepBookPublisherId
  rcases h with h | ⟨v, hv, hcond, hres⟩
  · rw [h]; exact ⟨b, rfl⟩
  · rw [hv]
    cases htr : jsTruthyO v with
    | false =>
        exact ⟨{ b with publisherId := jsOrNull v }, by simp [htr]⟩
    | true =>
        have hany := hres htr
        have hval : isValidStringO v = true := by simpa [htr] using hcond
        exact ⟨{ b with publisherId := jsOrNull v },
          by simp [hcond, htr, hany, hval]⟩

theorem stepBookCategoryId_dangling {s : Store} {r : BookUpdateReq}
    {cid : String} (b : Book) (hC : r.categoryId = some (some cid))
    (hne : cid ≠ "") (hv : jsTrim cid ≠ "")
    (hn : ∀ c ∈ s.categories, c.id ≠ cid) :
    stepBookCategoryId s r b =
      .error "Categoria não encontrada (categoryId inválido)." := by
  unfold stepBookCategoryId
  rw [hC]
  simp only [jsTruthyO, isValidStringO, Option.getD_some]
  have h1 : (cid != "") = true := by simpa using hne
  have h2 : (jsTrim cid != "") = true := by simpa using hv
  have hany : (s.categories.any (fun c => c.id == cid)) = false := by
    rw [List.any_eq_false]
    intro c hc
    simp [hn c hc]
  simp [h1, h2, hany]

theorem stepBookPublisherId_dangling {s : Store} {r : BookUpdateReq}
    {pid : String} (b : Book) (hP : r.publisherId = some (some pid))
    (hne : pid ≠ "") (hv : jsTrim pid ≠ "")
    (hn : ∀ p ∈ s.publishers, p.id ≠ pid) :
    stepBookPublisherId s r b = .error "Editora não encontrada." := by
  unfold stepBookPublisherId
  rw [hP]
  simp only [jsTruthyO, isValidStringO, Option.getD_some]
  have h1 : (pid != "") = true := by simpa using hne
  have h2 : (jsTrim pid != "") = true := by simpa using hv
  have hany : (s.publishers.any (fun p => p.id == pid)) = false := by
    rw [List.any_eq_false]
    intro p hp
    simp [hn p hp]
  simp [h1, h2, hany]

theorem stepBookCategoryId_null {s : Store} {r : BookUpdateReq} (b : Book)
    (hC : r.categoryId = some none) :
    stepBookCategoryId s r b = .ok { b with categoryId := none } := by
  unfold stepBookCategoryId
  rw [hC]
  simp [jsTruthyO, jsOrNull]

theorem stepBookCategoryId_skip {s : Store} {r : BookUpdateReq} (b : Book)
    (hC : r.categoryId = none) : stepBookCategoryId s r b = .ok b := by
  unfold stepBookCategoryId
  rw [hC]

def bookCMiss : Book :=
  { id := "b9", title := "T", description := "", price := 10, file := none,
    authorId := "a1", categoryId := some "c-miss", publisherId := none,
    createdAt := "t1" }

/-- C4 counterexample: POST /books accepts an explicit non-null categoryId
that resolves to no Category (the store has no categories at all): the
request succeeds, mutates the store and persists the dangling categoryId,
instead of being rejected with a validation error. -/
theorem C4_counterexample_create_category_unchecked :
    postBooks storeA2
        { title := some "T", price := some 10, authorId := some "a1",
          categoryId := some "c-miss" } "b9" "t1" =
      (.ok bookCMiss, { storeA2 with books := [bookCMiss] }) ∧
    storeA2.categories = [] := by
  exact ⟨by decide, by decide⟩

/-- C4 amended: on update(Book), an explicit non-null categoryId or
publisherId must resolve, else the request is rejected before any write, and
a null categoryId clears the field while an absent one leaves it unchanged;
on create(Book), only publisherId is validated this way — categoryId is
stored without any existence check (falsy values as null). -/
theorem C4_reference_checks_update_only_category :
    (∀ (s : Store) (r : BookCreateReq) (newId now pid : String),
      isValidStringO r.title = true →
      isValidPriceO r.price = true →
      isValidStringO r.authorId = true →
      (∃ a ∈ s.authors, a.id = r.authorId.getD "") →
      r.publisherId = some pid →
      pid ≠ "" →
      (∀ p ∈ s.publishers, p.id ≠ pid) →
      postBooks s r newId now = (.badRequest "Editora não encontrada.", s)) ∧
    (∀ (s : Store) (r : BookCreateReq) (newId now : String),
      isValidStringO r.title = true →
      isValidPriceO r.price = true →
      isValidStringO r.authorId = true →
      (∃ a ∈ s.authors, a.id = r.authorId.getD "") →
      (jsTruthyO r.publisherId = true →
        ∃ p ∈ s.publishers, p.id = r.publisherId.getD "") →
      ∃ b, postBooks s r newId now = (.ok b, { s with books := s.books ++ [b] }) ∧
        b.categoryId = jsOrNull r.categoryId) ∧
    (∀ (s : Store) (bid : String) (r : BookUpdateReq) (now cid : String),
      (∃ b0 ∈ s.books, b0.id = bid) →
      titlePasses r → pricePasses r → authorPasses s r →
      r.categoryId = some (some cid) →
      cid ≠ "" →
      jsTrim cid ≠ "" →
      (∀ c ∈ s.categories, c.id ≠ cid) →
      putBooks s bid r now =
        (.badRequest "Categoria não encontrada (categoryId inválido).", s)) ∧
    (∀ (s : Store) (bid : String) (r : BookUpdateReq) (now pid : String),
      (∃ b0 ∈ s.books, b0.id = bid) →
      titlePasses r → pricePasses r → authorPasses s r → categoryPasses s r →
      r.publisherId = some (some pid) →
      pid ≠ "" →
      jsTrim pid ≠ "" →
      (∀ p ∈ s.publishers, p.id ≠ pid) →
      putBooks s bid r now = (.badRequest "Editora não encontrada.", s)) ∧
    (∀ (s : Store) (bid : String) (r : BookUpdateReq) (now : String)
        (idx : Nat) (b0 : Book),
      findWithIdx (fun b => b.id == bid) s.books = some (idx, b0) →
      titlePasses r → pricePasses r → authorPasses s r →
      r.categoryId = some none → publisherPasses s r →
      ∃ b', putBooks s bid r now =
          (.ok b', { s with books := s.books.set idx b' }) ∧
        b'.categoryId = none) ∧
    (∀ (s : Store) (bid : String) (r : BookUpdateReq) (now : String)
        (idx : Nat) (b0 : Book),
      findWithIdx (fun b => b.id == bid) s.books = some (idx, b0) →
      titlePasses r → pricePasses r → authorPasses s r →
      r.categoryId = none → publisherPasses s r →
      ∃ b', putBooks s bid r now =
          (.ok b', { s with books := s.books.set idx b' }) ∧
        b'.categoryId = b0.categoryId) := by
  refine ⟨?_, ?_, ?_, ?_, ?_, ?_⟩
  · intro s r newId now pid hT hP hAv hres hPid hne hn
    have hfindA : (s.authors.find? (fun a => a.id == r.authorId.getD "")).isNone = false := by
      obtain ⟨a, ha, haid⟩ := hres
      cases hf : s.authors.find? (fun a => a.id == r.authorId.getD "") with
      | none =>
          have := List.find?_eq_none.mp hf a ha
          simp [haid] at this
      | some x => rfl
    have htr : jsTruthyO r.publisherId = true := by
      rw [hPid]; simpa [jsTruthyO] using hne
    have hfindP : s.publishers.find? (fun p => p.id == r.publisherId.getD "") = none := by
      rw [List.find?_eq_none]
      intro p hp
      rw [hPid]
      simpa using hn p hp
    unfold postBooks
    simp [hT, hP, hAv, hfindA, htr, hfindP]
  · intro s r newId now hT hP hAv hres hpub
    have hfindA : (s.authors.find? (fun a => a.id == r.authorId.getD "")).isNone = false := by
      obtain ⟨a, ha, haid⟩ := hres
      cases hf : s.authors.find? (fun a => a.id == r.authorId.getD "") with
      | none =>
          have := List.find?_eq_none.mp hf a ha
          simp [haid] at this
      | some x => rfl
    have hpubc : (jsTruthyO r.publisherId &&
        (s.publishers.find? (fun p => p.id == r.publisherId.getD "")).isNone) = false := by
      cases htr : jsTruthyO r.publisherId with
      | false => simp
      | true =>
          obtain ⟨p, hp, hpid⟩ := hpub htr
          cases hf : s.publishers.find? (fun q => q.id == r.publisherId.getD "") with
          | none =>
              have := List.find?_eq_none.mp hf p hp
              simp [hpid] at this
          | some x => simp
    refine ⟨{ id := newId, title := jsTrim (r.title.getD ""),
              description := jsStrOrEmpty r.description, price := r.price.getD 0,
              file := jsOrNull r.file, authorId := r.authorId.getD "",
              categoryId := jsOrNull r.categoryId,
              publisherId := jsOrNull r.publisherId, createdAt := now,
              updatedAt := none }, ?_, rfl⟩
    unfold postBooks
    simp [hT, hP, hAv, hfindA, hpubc]
  · intro s bid r now cid hex hT hP hA hC hne hv hn
    obtain ⟨b0, hb0mem, hb0id⟩ := hex
    obtain ⟨i, y, hfind⟩ :=
      findWithIdx_isSome_of_mem (p := fun b => b.id == bid) hb0mem (by simp [hb0id])
    obtain ⟨b1, h1⟩ := stepBookTitle_isOk y hT
    obtain ⟨b3, h3⟩ := stepBookPrice_isOk (stepBookDescription r b1) hP
    obtain ⟨b5, h5⟩ := stepBookAuthorId_isOk (stepBookFile r b3) hA
    have h6 := stepBookCategoryId_dangling (s := s) (r := r) b5 hC hne hv hn
    have hfields : putBooksFields s r y =
        .error "Categoria não encontrada (categoryId inválido)." := by
      unfold putBooksFields
      rw [h1, seqE_ok, h3, seqE_ok, h5, seqE_ok, h6, seqE_error]
    unfold putBooks
    simp only [hfind, hfields]
  · intro s bid r now pid hex hT hP hA hCat hPid hne hv hn
    obtain ⟨b0, hb0mem, hb0id⟩ := hex
    obtain ⟨i, y, hfind⟩ :=
      findWithIdx_isSome_of_mem (p := fun b => b.id == bid) hb0mem (by simp [hb0id])
    obtain ⟨b1, h1⟩ := stepBookTitle_isOk y hT
    obtain ⟨b3, h3⟩ := stepBookPrice_isOk (stepBookDescription r b1) hP
    obtain ⟨b5, h5⟩ := stepBookAuthorId_isOk (stepBookFile r b3) hA
    obtain ⟨b6, h6⟩ := stepBookCategoryId_isOk b5 hCat
    have h7 := stepBookPublisherId_dangling (s := s) (r := r) b6 hPid hne hv hn
    have hfields : putBooksFields s r y = .error "Editora não encontrada." := by
      unfold putBooksFields
      rw [h1, seqE_ok, h3, seqE_ok, h5, seqE_ok, h6, seqE_ok, h7]
    unfold putBooks
    simp only [hfind, hfields]
  · intro s bid r now idx b0 hfind hT hP hA hC hPub
    obtain ⟨b1, h1⟩ := stepBookTitle_isOk b0 hT
    obtain ⟨b3, h3⟩ := stepBookPrice_isOk (stepBookDescription r b1) hP
    obtain ⟨b5, h5⟩ := stepBookAuthorId_isOk (stepBookFile r b3) hA
    have h6 := stepBookCategoryId_null (s := s) (r := r) b5 hC
    obtain ⟨b7, h7⟩ := stepBookPublisherId_isOk { b5 with categoryId := none } hPub
    have hfields : putBooksFields s r b0 = .ok b7 := by
      unfold putBooksFields
      rw [h1, seqE_ok, h3, seqE_ok, h5, seqE_ok, h6, seqE_ok, h7]
    refine ⟨{ b7 with updatedAt := some now }, ?_, ?_⟩
    · unfold putBooks
      simp only [hfind, hfields]
    · have hc := (stepBookPublisherId_ok h7).2.2.1
      simpa using hc
  · intro s bid r now idx b0 hfind hT hP hA hC hPub
    obtain ⟨b1, h1⟩ := stepBookTitle_isOk b0 hT
    obtain ⟨b3, h3⟩ := stepBookPrice_isOk (stepBookDescription r b1) hP
    obtain ⟨b5, h5⟩ := stepBookAuthorId_isOk (stepBookFile r b3) hA
    have h6 := stepBookCategoryId_skip (s := s) (r := r) b5 hC
    obtain ⟨b7, h7⟩ := stepBookPublisherId_isOk b5 hPub
    have hfields : putBooksFields s r b0 = .ok b7 := by
      unfold putBooksFields
      rw [h1, seqE_ok, h3, seqE_ok, h5, seqE_ok, h6, seqE_ok, h7]
    refine ⟨{ b7 with updatedAt := some now }, ?_, ?_⟩
    · unfold putBooks
      simp only [hfind, hfields]
    · show b7.categoryId = b0.categoryId
      rw [(stepBookPublisherId_ok h7).2.2.1,
          (stepBookAuthorId_ok h5).2.1,
          (stepBookFile_proj r b3).2.2.1,
          (stepBookPrice_ok h3).2.2.1,
          (stepBookDescription_proj r b1).2.2.1,
          (stepBookTitle_ok h1).2.2.1]

/-- Concrete instantiation of every hypothesis of
C4_reference_checks_update_only_category. -/
theorem C4_reference_checks_witness :
    postBooks storeA2
        { title := some "T", price := some 10, authorId := some "a1",
          publisherId := some "p-miss" } "b9" "t1" =
      (.badRequest "Editora não encontrada.", storeA2) ∧
    (∃ b, postBooks storeA2
        { title := some "T", price := some 10, authorId := some "a1",
          categoryId := some "c-x" } "b9" "t1" =
      (.ok b, { storeA2 with books := storeA2.books ++ [b] }) ∧
      b.categoryId = jsOrNull (some "c-x")) ∧
    putBooks storeAB "b1" { categoryId := some (some "c-miss") } "t1" =
      (.badRequest "Categoria não encontrada (categoryId inválido).", storeAB) ∧
    putBooks storeAB "b1" { publisherId := some (some "p-miss") } "t1" =
      (.badRequest "Editora não encontrada.", storeAB) ∧
    (∃ b', putBooks storeC "b2" { categoryId := some none } "t1" =
      (.ok b', { storeC with books := storeC.books.set 0 b' }) ∧
      b'.categoryId = none) ∧
    (∃ b', putBooks storeAB "b1" {} "t1" =
      (.ok b', { storeAB with books := storeAB.books.set 0 b' }) ∧
      b'.categoryId = bookB.categoryId) :=
  ⟨C4_reference_checks_update_only_category.1 storeA2 _ "b9" "t1" "p-miss"
      (by decide) (by decide) (by decide) (by decide) rfl (by decide) (by decide),
   C4_reference_checks_update_only_category.2.1 storeA2 _ "b9" "t1"
      (by decide) (by decide) (by decide) (by decide) (by decide),
   C4_reference_checks_update_only_category.2.2.1 storeAB "b1" _ "t1" "c-miss"
      (by decide) (Or.inl rfl) (Or.inl rfl) (Or.inl rfl) rfl
      (by decide) (by decide) (by decide),
   C4_reference_checks_update_only_category.2.2.2.1 storeAB "b1" _ "t1" "p-miss"
      (by decide) (Or.inl rfl) (Or.inl rfl) (Or.inl rfl) (Or.inl rfl) rfl
      (by decide) (by decide) (by decide),
   C4_reference_checks_update_only_category.2.2.2.2.1 storeC "b2" _ "t1" 0 bookBC
      (by decide) (Or.inl rfl) (Or.inl rfl) (Or.inl rfl) rfl (Or.inl rfl),
   C4_reference_checks_update_only_category.2.2.2.2.2 storeAB "b1" _ "t1" 0 bookB
      (by decide) (Or.inl rfl) (Or.inl rfl) (Or.inl rfl) rfl (Or.inl rfl)⟩

/-! ## Coupon code normalization and (missing) uniqueness (claim C5) -/

def couponSave : Coupon :=
  { id := "c1", code := "SAVE10", discountPercentage := 10, createdAt := "t0" }

def storeCoupon : Store := { storeEmpty with coupons := [couponSave] }

def couponSave2 : Coupon :=
  { id := "c2", code := "SAVE10", discountPercentage := 20, createdAt := "t1" }

/-- C5 counterexample: with a coupon whose stored code is "SAVE10" already
present, creating a coupon with code "Save10" succeeds and stores a second
coupon with the same normalized code — the handler performs no uniqueness
check, so no DuplicateUnique error is produced. -/
theorem C5_counterexample_duplicate_code_accepted :
    createCoupon storeCoupon
        { code := some "Save10", discountPercentage := some 20 } "c2" "t1" =
      (.ok couponSave2, { storeCoupon with coupons := [couponSave, couponSave2] }) ∧
    couponSave2.code = couponSave.code := by
  exact ⟨by decide, by decide⟩

theorem stepCouponDiscount_isOk {r : CouponUpdateReq} (c : Coupon)
    (h : r.discountPercentage = none ∨
      ∃ d, r.discountPercentage = some (some d) ∧ 0 < d ∧ d ≤ 100) :
    ∃ c', stepCouponDiscount r c = .ok c' ∧ c'.code = c.code := by
  unfold stepCouponDiscount
  rcases h with h | ⟨d, hd, hd1, hd2⟩
  · rw [h]; exact ⟨c, rfl, rfl⟩
  · rw [hd]
    have hcond : (decide (d ≤ 0) || decide (d > 100)) = false := by
      simp only [Bool.or_eq_false_iff, decide_eq_false_iff_not]
      exact ⟨by omega, by omega⟩
    exact ⟨{ c with discountPercentage := d }, by simp [hcond], rfl⟩

/-- C5 amended: coupon codes are stored trimmed and upper-cased on create and
update, but no uniqueness check exists: creating a coupon whose normalized
code equals an existing coupon's stored code succeeds unconditionally (the
new record is appended and persisted), for every store — including stores
already holding that code. -/
theorem C5_coupon_code_normalized_no_unique :
    (∀ (s : Store) (r : CouponCreateReq) (newId now c : String) (d : Int),
      r.code = some c →
      jsTrim c ≠ "" →
      r.discountPercentage = some d →
      0 < d → d ≤ 100 →
      ∃ cp, createCoupon s r newId now =
          (.ok cp, { s with coupons := s.coupons ++ [cp] }) ∧
        cp.code = jsToUpper (jsTrim c)) ∧
    (∀ (s : Store) (id : String) (r : CouponUpdateReq) (now : String)
        (idx : Nat) (c0 : Coupon) (cv : String),
      findWithIdx (fun c => c.id == id) s.coupons = some (idx, c0) →
      r.code = some (some cv) →
      jsTrim cv ≠ "" →
      (r.discountPercentage = none ∨
        ∃ d, r.discountPercentage = some (some d) ∧ 0 < d ∧ d ≤ 100) →
      ∃ c', putCoupons s id r now =
          (.ok c', { s with coupons := s.coupons.set idx c' }) ∧
        c'.code = jsToUpper (jsTrim cv)) := by
  refine ⟨?_, ?_⟩
  · intro s r newId now c d hc hv hd hd1 hd2
    have hval : isValidStringO (some c) = true := by
      simpa [isValidStringO] using hv
    have hcond : (decide (d ≤ 0) || decide (d > 100)) = false := by
      simp only [Bool.or_eq_false_iff, decide_eq_false_iff_not]
      exact ⟨by omega, by omega⟩
    refine ⟨{ id := newId, code := jsToUpper (jsTrim c), discountPercentage := d,
              createdAt := now, updatedAt := none }, ?_, rfl⟩
    unfold createCoupon
    simp [hval, hd, hcond, hc]
  · intro s id r now idx c0 cv hfind hcode hcv hdisc
    have h1 : stepCouponCode r c0 = .ok { c0 with code := jsToUpper (jsTrim cv) } := by
      unfold stepCouponCode
      rw [hcode]
      simp [isValidStringO, hcv]
    obtain ⟨c2, h2, hc2code⟩ := stepCouponDiscount_isOk _ hdisc
    have hfields : putCouponsFields r c0 = .ok c2 := by
      unfold putCouponsFields
      rw [h1, seqE_ok, h2]
    refine ⟨{ c2 with updatedAt := some now }, ?_, ?_⟩
    · unfold putCoupons
      simp only [hfind, hfields]
    · show c2.code = jsToUpper (jsTrim cv)
      rw [hc2code]

/-- Concrete instantiation of the hypotheses of
C5_coupon_code_normalized_no_unique: both at a store that already holds the
normalized code "SAVE10". -/
theorem C5_coupon_code_normalized_no_unique_witness :
    (∃ cp, createCoupon storeCoupon
        { code := some " save10 ", discountPercentage := some 20 } "c3" "t2" =
      (.ok cp, { storeCoupon with coupons := storeCoupon.coupons ++ [cp] }) ∧
      cp.code = jsToUpper (jsTrim " save10 ")) ∧
    (∃ c', putCoupons storeCoupon "c1" { code := some (some "Save10") } "t2" =
      (.ok c', { storeCoupon with coupons := storeCoupon.coupons.set 0 c' }) ∧
      c'.code = jsToUpper (jsTrim "Save10")) :=
  ⟨C5_coupon_code_normalized_no_unique.1 storeCoupon _ "c3" "t2" " save10 " 20
      rfl (by decide) rfl (by decide) (by decide),
   C5_coupon_code_normalized_no_unique.2 storeCoupon "c1" _ "t2" 0 couponSave
      "Save10" (by decide) rfl (by decide) (Or.inl rfl)⟩

/-! ## Order totals (claim C6) -/

/-- The price of the Book a line item references (the price the POST /orders
loop reads through find). -/
def priceOf (books : List Book) (id : String) : Int :=
  ((books.find? (fun b => b.id == id)).map Book.price).getD 0

/-- The facts about an order a later operation could corrupt: its id and its
stored total. -/
def orderKey (o : Order) : String × Int := (o.id, o.total)

theorem set_getElem?_self {l : List α} {i : Nat} {a : α} (h : l[i]? = some a) :
    l.set i a = l := by
  induction l generalizing i with
  | nil => simp at h
  | cons x xs ih =>
    cases i with
    | zero =>
        simp only [List.getElem?_cons_zero, Option.some_inj] at h
        subst h
        rfl
    | succ i =>
        simp only [List.getElem?_cons_succ] at h
        show x :: xs.set i a = x :: xs
        rw [ih h]

theorem map_set_eq_of_eq {l : List α} {i : Nat} {x y : α} {f : α → β}
    (hget : l[i]? = some y) (hf : f x = f y) :
    (l.set i x).map f = l.map f := by
  rw [List.map_set, hf]
  apply set_getElem?_self
  rw [List.getElem?_map, hget]
  rfl

/-- When every line item resolves, the accumulated total is the sum over the
items of the referenced Book's price times the effective quantity. -/
theorem computeTotal_resolves (books : List Book) (items : List OrderItem)
    (h : ∀ it ∈ items, ∃ b ∈ books, b.id = it.bookId) :
    computeTotal books items =
      .ok ((items.map (fun it => priceOf books it.bookId * effQty it.quantity)).sum) := by
  induction items with
  | nil => rfl
  | cons it rest ih =>
    obtain ⟨b, hb, hbid⟩ := h it (List.mem_cons_self ..)
    cases hf : books.find? (fun b => b.id == it.bookId) with
    | none => exact absurd (List.find?_eq_none.mp hf b hb) (by simp [hbid])
    | some bk =>
        unfold computeTotal
        rw [hf, ih (fun x hx => h x (List.mem_cons_of_mem _ hx))]
        simp [priceOf, hf]

/-- PUT /orders/:id never changes any order's id or total. -/
theorem putOrders_keys (s : Store) (id : String) (r : OrderUpdateReq)
    (now : String) :
    (putOrders s id r now).2.orders.map orderKey = s.orders.map orderKey := by
  unfold putOrders
  split
  · rfl
  rename_i idx o0 hfind
  have hget := (findWithIdx_spec hfind).1
  split
  · split
    · rfl
    · exact map_set_eq_of_eq hget rfl
  · exact map_set_eq_of_eq hget rfl

theorem postOrders_orders (s : Store) (r : OrderCreateReq) (i n : String) :
    (postOrders s r i n).2.orders = s.orders ∨
      ∃ o, (postOrders s r i n).2.orders = s.orders ++ [o] := by
  unfold postOrders
  repeat' split
  all_goals first
    | exact Or.inl rfl
    | exact Or.inr ⟨_, rfl⟩

theorem deleteOrders_orders (s : Store) (id : String) :
    (deleteOrders s id).2.orders = s.orders ∨
      (deleteOrders s id).2.orders = s.orders.filter (fun o => o.id != id) := by
  unfold deleteOrders
  simp only []
  split
  · exact Or.inl rfl
  · exact Or.inr rfl

/-- Every operation either keeps the (id, total) pairs of the stored orders
as a subsequence of what they were (reads, updates, deletes), or extends
them with the single new order's pair (create). -/
theorem applyOp_orderKeys (s : Store) (op : Op) :
    List.Sublist ((applyOp s op).orders.map orderKey) (s.orders.map orderKey) ∨
      ∃ o, (applyOp s op).orders.map orderKey =
        s.orders.map orderKey ++ [orderKey o] := by
  cases op with
  | postAuthors r i n =>
      left
      rcases postAuthors_state s r i n with hs | ⟨v, hs⟩ <;>
        · show List.Sublist ((postAuthors s r i n).2.orders.map orderKey) _
          rw [hs]
  | putAuthors id r n =>
      left
      rcases putAuthors_state s id r n with hs | ⟨v, hs⟩ <;>
        · show List.Sublist ((putAuthors s id r n).2.orders.map orderKey) _
          rw [hs]
  | deleteAuthors id =>
      left
      rcases deleteAuthors_state s id with hs | ⟨v, hs⟩ <;>
        · show List.Sublist ((deleteAuthors s id).2.orders.map orderKey) _
          rw [hs]
  | postBooks r i n =>
      left
      rcases postBooks_state s r i n with hs | ⟨v, hs⟩ <;>
        · show List.Sublist ((postBooks s r i n).2.orders.map orderKey) _
          rw [hs]
  | putBooks id r n =>
      left
      rcases putBooks_state s id r n with hs | ⟨v, hs⟩ <;>
        · show List.Sublist ((putBooks s id r n).2.orders.map orderKey) _
          rw [hs]
  | deleteBooks id =>
      left
      rcases deleteBooks_state s id with hs | ⟨v, hs⟩ <;>
        · show List.Sublist ((deleteBooks s id).2.orders.map orderKey) _
          rw [hs]
  | postUsers r i n =>
      left
      rcases postUsers_state s r i n with hs | ⟨v, hs⟩ <;>
        · show List.Sublist ((postUsers s r i n).2.orders.map orderKey) _
          rw [hs]
  | putUsers id r n =>
      left
      rcases putUsers_state s id r n with hs | ⟨v, hs⟩ <;>
        · show List.Sublist ((putUsers s id r n).2.orders.map orderKey) _
          rw [hs]
  | deleteUsers id =>
      left
      rcases deleteUsers_state s id with hs | ⟨v, hs⟩ <;>
        · show List.Sublist ((deleteUsers s id).2.orders.map orderKey) _
          rw [hs]
  | postCategories r i n =>
      left
      rcases postCategories_state s r i n with hs | ⟨v, hs⟩ <;>
        · show List.Sublist ((postCategories s r i n).2.orders.map orderKey) _
          rw [hs]
  | putCategories id r n =>
      left
      rcases putCategories_state s id r n with hs | ⟨v, hs⟩ <;>
        · show List.Sublist ((putCategories s id r n).2.orders.map orderKey) _
          rw [hs]
  | deleteCategories id =>
      left
      rcases deleteCategories_state s id with hs | ⟨v, hs⟩ <;>
        · show List.Sublist ((deleteCategories s id).2.orders.map orderKey) _
          rw [hs]
  | postPublishers r i n =>
      left
      rcases postPublishers_state s r i n with hs | ⟨v, hs⟩ <;>
        · show List.Sublist ((postPublishers s r i n).2.orders.map orderKey) _
          rw [hs]
  | putPublishers id r n =>
      left
      rcases putPublishers_state s id r n with hs | ⟨v, hs⟩ <;>
        · show List.Sublist ((putPublishers s id r n).2.orders.map orderKey) _
          rw [hs]
  | deletePublishers id =>
      left
      rcases deletePublishers_state s id with hs | ⟨v, hs⟩ <;>
        · show List.Sublist ((deletePublishers s id).2.orders.map orderKey) _
          rw [hs]
  | postReviews r i n =>
      left
      rcases postReviews_state s r i n with hs | ⟨v, hs⟩ <;>
        · show List.Sublist ((postReviews s r i n).2.orders.map orderKey) _
          rw [hs]
  | putReviews id r n =>
      left
      rcases putReviews_state s id r n with hs | ⟨v, hs⟩ <;>
        · show List.Sublist ((putReviews s id r n).2.orders.map orderKey) _
          rw [hs]
  | deleteReviews id =>
      left
      rcases deleteReviews_state s id with hs | ⟨v, hs⟩ <;>
        · show List.Sublist ((deleteReviews s id).2.orders.map orderKey) _
          rw [hs]
  | createCoupon r i n =>
      left
      rcases createCoupon_state s r i n with hs | ⟨v, hs⟩ <;>
        · show List.Sublist ((createCoupon s r i n).2.orders.map orderKey) _
          rw [hs]
  | putCoupons id r n =>
      left
      rcases putCoupons_state s id r n with hs | ⟨v, hs⟩ <;>
        · show List.Sublist ((putCoupons s id r n).2.orders.map orderKey) _
          rw [hs]
  | deleteCoupons id =>
      left
      rcases deleteCoupons_state s id with hs | ⟨v, hs⟩ <;>
        · show List.Sublist ((deleteCoupons s id).2.orders.map orderKey) _
          rw [hs]
  | getAuthors => exact Or.inl (List.Sublist.refl _)
  | getUsers => exact Or.inl (List.Sublist.refl _)
  | getCategories => exact Or.inl (List.Sublist.refl _)
  | getPublishers => exact Or.inl (List.Sublist.refl _)
  | getOrders => exact Or.inl (List.Sublist.refl _)
  | getCoupons => exact Or.inl (List.Sublist.refl _)
  | getAuthorById id =>
      left
      show List.Sublist ((getAuthorById s id).2.orders.map orderKey) _
      rw [getAuthorById_state]
  | getUserById id =>
      left
      show List.Sublist ((getUserById s id).2.orders.map orderKey) _
      rw [getUserById_state]
  | getCategoryById id =>
      left
      show List.Sublist ((getCategoryById s id).2.orders.map orderKey) _
      rw [getCategoryById_state]
  | getPublisherById id =>
      left
      show List.Sublist ((getPublisherById s id).2.orders.map orderKey) _
      rw [getPublisherById_state]
  | getReviewById id =>
      left
      show List.Sublist ((getReviewById s id).2.orders.map orderKey) _
      rw [getReviewById_state]
  | getOrderById id =>
      left
      show List.Sublist ((getOrderById s id).2.orders.map orderKey) _
      rw [getOrderById_state]
  | getCouponById id =>
      left
      show List.Sublist ((getCouponById s id).2.orders.map orderKey) _
      rw [getCouponById_state]
  | getBooks e =>
      left
      show List.Sublist ((getBooks s e).2.orders.map orderKey) _
      rw [getBooks_state]
  | getReviews e =>
      left
      show List.Sublist ((getReviews s e).2.orders.map orderKey) _
      rw [getReviews_state]
  | getBookById id e =>
      left
      show List.Sublist ((getBookById s id e).2.orders.map orderKey) _
      rw [getBookById_state]
  | postOrders r i n =>
      rcases postOrders_orders s r i n with hs | ⟨o, hs⟩
      · left
        show List.Sublist ((postOrders s r i n).2.orders.map orderKey) _
        rw [hs]
      · right
        refine ⟨o, ?_⟩
        show (postOrders s r i n).2.orders.map orderKey = _
        rw [hs, List.map_append]
        rfl
  | putOrders id r n =>
      left
      show List.Sublist ((putOrders s id r n).2.orders.map orderKey) _
      rw [putOrders_keys]
  | deleteOrders id =>
      left
      rcases deleteOrders_orders s id with hs | hs
      · show List.Sublist ((deleteOrders s id).2.orders.map orderKey) _
        rw [hs]
      · show List.Sublist ((deleteOrders s id).2.orders.map orderKey) _
        rw [hs]
        exact List.Sublist.map orderKey (List.filter_sublist _)

/-- C6: a successful create(Order) stores total as the accumulated sum over
the items of the referenced Book's price at creation time multiplied by the
item's effective quantity (quantity defaulting to 1), and no later operation
of the API changes any stored order's total: updating an Order only rewrites
status/updatedAt, updating a Book never touches orders, and in general every
operation leaves the (id, total) pairs of existing orders intact, at most
appending one new order or deleting orders wholesale. -/
theorem C6_order_total_frozen :
    (∀ (s : Store) (r : OrderCreateReq) (newId now : String) (t : Int),
      isValidStringO r.userId = true →
      s.users.any (fun u => u.id == r.userId.getD "") = true →
      r.items ≠ [] →
      computeTotal s.books r.items = .ok t →
      ∃ o, postOrders s r newId now = (.ok o, { s with orders := s.orders ++ [o] }) ∧
        o.total = t ∧ o.items = r.items) ∧
    (∀ (books : List Book) (items : List OrderItem),
      (∀ it ∈ items, ∃ b ∈ books, b.id = it.bookId) →
      computeTotal books items =
        .ok ((items.map (fun it => priceOf books it.bookId * effQty it.quantity)).sum)) ∧
    (∀ (s : Store) (id : String) (r : OrderUpdateReq) (now : String),
      (putOrders s id r now).2.orders.map orderKey = s.orders.map orderKey) ∧
    (∀ (s : Store) (id : String) (r : BookUpdateReq) (now : String),
      (putBooks s id r now).2.orders = s.orders) ∧
    (∀ (s : Store) (op : Op),
      List.Sublist ((applyOp s op).orders.map orderKey) (s.orders.map orderKey) ∨
        ∃ o, (applyOp s op).orders.map orderKey =
          s.orders.map orderKey ++ [orderKey o]) := by
  refine ⟨?_, computeTotal_resolves, putOrders_keys, ?_, applyOp_orderKeys⟩
  · intro s r newId now t hu hexists hne ht
    have hitems : r.items.isEmpty = false := by
      cases hi : r.items with
      | nil => exact absurd hi hne
      | cons x xs => rfl
    refine ⟨{ id := newId, userId := r.userId.getD "", items := r.items,
              total := t, status := "pending", createdAt := now,
              updatedAt := none }, ?_, rfl, rfl⟩
    unfold postOrders
    simp [hu, hexists, hitems, ht]
  · intro s id r now
    rcases putBooks_state s id r now with hs | ⟨v, hs⟩ <;> rw [hs]

def userU : User :=
  { id := "u1", name := "U", email := "u@x", password := some "pw",
    createdAt := "t0" }

def bookP1 : Book := { bookB with id := "bp1", price := 10 }

def bookP2 : Book := { bookB with id := "bp2", price := 5 }

def storeOrder : Store :=
  { storeEmpty with
    authors := [authorA]
    books := [bookP1, bookP2]
    users := [userU] }

def orderItems : List OrderItem :=
  [{ bookId := "bp1", quantity := some 2 }, { bookId := "bp2", quantity := some 1 }]

def order25 : Order :=
  { id := "o1", userId := "u1", items := orderItems, total := 25,
    status := "pending", createdAt := "t1" }

def storeWithOrder : Store := { storeOrder with orders := [order25] }

/-- Concrete instantiation of the hypotheses of C6_order_total_frozen, on the
specification's own example: prices 10 and 5, quantities 2 and 1, total 25. -/
theorem C6_order_total_frozen_witness :
    (∃ o, postOrders storeOrder { userId := some "u1", items := orderItems } "o1" "t1" =
      (.ok o, { storeOrder with orders := storeOrder.orders ++ [o] }) ∧
      o.total = 25 ∧ o.items = orderItems) ∧
    computeTotal storeOrder.books orderItems = .ok 25 ∧
    (putOrders storeWithOrder "o1" { status := some (some "paid") } "t2").2.orders.map orderKey =
      storeWithOrder.orders.map orderKey ∧
    (putBooks storeWithOrder "bp1" { price := some (some 99) } "t2").2.orders =
      storeWithOrder.orders :=
  ⟨C6_order_total_frozen.1 storeOrder _ "o1" "t1" 25
      (by decide) (by decide) (by decide) rfl,
   C6_order_total_frozen.2.1 storeOrder.books orderItems (by decide),
   C6_order_total_frozen.2.2.1 storeWithOrder "o1" _ "t2",
   C6_order_total_frozen.2.2.2.1 storeWithOrder "bp1" _ "t2"⟩

/-! ## User email uniqueness (claim C7) -/

theorem stepUserName_isOk {r : UserUpdateReq} (u : User)
    (h : r.name = none ∨ ∃ v, r.name = some v ∧ isValidStringO v = true) :
    ∃ u', stepUserName r u = .ok u' ∧ u'.email = u.email := by
  unfold stepUserName
  rcases h with h | ⟨v, hv, hval⟩
  · rw [h]; exact ⟨u, rfl, rfl⟩
  · rw [hv]
    exact ⟨{ u with name := jsTrim (v.getD "") }, by simp [hval], rfl⟩

theorem stepUserPassword_email (r : UserUpdateReq) (u : User) :
    (stepUserPassword r u).email = u.email := by
  unfold stepUserPassword
  split <;> rfl

theorem stepUserEmail_dup {s : Store} {idx : Nat} {r : UserUpdateReq}
    {e : String} (u : User) (hE : r.email = some (some e)) (hv : jsTrim e ≠ "")
    (hex : ∃ j u', s.users[j]? = some u' ∧ j ≠ idx ∧ u'.email = jsTrim e) :
    stepUserEmail s idx r u = .error "E-mail já cadastrado para outro usuário." := by
  unfold stepUserEmail
  rw [hE]
  have hany : anyWithIdx
      (fun i w => i != idx && w.email == jsTrim e) s.users = true := by
    obtain ⟨j, u', hj, hne, he⟩ := hex
    exact anyWithIdx_iff.mpr ⟨j, u', hj, by simp [hne, he]⟩
  simp [isValidStringO, hv, hany]

theorem stepUserEmail_own {s : Store} {idx : Nat} {r : UserUpdateReq}
    {e : String} (u : User) (hE : r.email = some (some e)) (hv : jsTrim e ≠ "")
    (huniq : ∀ j u', s.users[j]? = some u' → u'.email = jsTrim e → j = idx) :
    stepUserEmail s idx r u = .ok { u with email := jsTrim e } := by
  unfold stepUserEmail
  rw [hE]
  have hany : anyWithIdx
      (fun i w => i != idx && w.email == jsTrim e) s.users = false := by
    cases hb : anyWithIdx
        (fun i w => i != idx && w.email == jsTrim e) s.users with
    | false => rfl
    | true =>
        obtain ⟨j, w, hj, hp⟩ := anyWithIdx_iff.mp hb
        simp only [Bool.and_eq_true, bne_iff_ne, ne_eq, beq_iff_eq,
          Option.getD_some] at hp
        exact (hp.1 (huniq j w hj hp.2)).elim
  simp [isValidStringO, hv, hany]

/-- C7: creating a User whose trimmed email equals an existing User's stored
email fails with the duplicate error; updating a User to an email already
stored at a different index fails likewise; updating a User's email to a
value held by no other record (in particular its own current email, under
uniqueness) succeeds, because the check excludes the record's own index. -/
theorem C7_user_email_unique :
    (∀ (s : Store) (r : UserCreateReq) (newId now : String),
      isValidStringO r.name = true →
      isValidStringO r.email = true →
      isValidStringO r.password = true →
      (∃ u ∈ s.users, u.email = jsTrim (r.email.getD "")) →
      postUsers s r newId now = (.badRequest "E-mail já cadastrado.", s)) ∧
    (∀ (s : Store) (uid : String) (r : UserUpdateReq) (now : String)
        (idx : Nat) (u0 : User) (e : String),
      findWithIdx (fun u => u.id == uid) s.users = some (idx, u0) →
      (r.name = none ∨ ∃ v, r.name = some v ∧ isValidStringO v = true) →
      r.email = some (some e) →
      jsTrim e ≠ "" →
      (∃ j u', s.users[j]? = some u' ∧ j ≠ idx ∧ u'.email = jsTrim e) →
      putUsers s uid r now =
        (.badRequest "E-mail já cadastrado para outro usuário.", s)) ∧
    (∀ (s : Store) (uid : String) (r : UserUpdateReq) (now : String)
        (idx : Nat) (u0 : User) (e : String),
      findWithIdx (fun u => u.id == uid) s.users = some (idx, u0) →
      (r.name = none ∨ ∃ v, r.name = some v ∧ isValidStringO v = true) →
      r.email = some (some e) →
      jsTrim e ≠ "" →
      (∀ j u', s.users[j]? = some u' → u'.email = jsTrim e → j = idx) →
      ∃ u', putUsers s uid r now =
          (.ok u'.toSafe, { s with users := s.users.set idx u' }) ∧
        u'.email = jsTrim e) := by
  refine ⟨?_, ?_, ?_⟩
  · intro s r newId now hN hE hPw hex
    have hval : (isValidStringO r.name && isValidStringO r.email &&
        isValidStringO r.password) = true := by
      simp [hN, hE, hPw]
    have hany : s.users.any (fun u => u.email == jsTrim (r.email.getD "")) = true := by
      obtain ⟨u, hu, hue⟩ := hex
      exact List.any_eq_true.mpr ⟨u, hu, by simp [hue]⟩
    unfold postUsers
    simp [hval, hany]
  · intro s uid r now idx u0 e hfind hname hE hv hex
    obtain ⟨u1, h1, hu1e⟩ := stepUserName_isOk u0 hname
    have h2 := stepUserEmail_dup u1 hE hv hex
    have hfields : putUsersFields s idx r u0 =
        .error "E-mail já cadastrado para outro usuário." := by
      unfold putUsersFields
      rw [h1, seqE_ok, h2, seqE_error]
    unfold putUsers
    simp only [hfind, hfields]
  · intro s uid r now idx u0 e hfind hname hE hv huniq
    obtain ⟨u1, h1, hu1e⟩ := stepUserName_isOk u0 hname
    have h2 := stepUserEmail_own u1 hE hv huniq
    have hfields : putUsersFields s idx r u0 =
        .ok (stepUserPassword r { u1 with email := jsTrim e }) := by
      unfold putUsersFields
      rw [h1, seqE_ok, h2, seqE_ok]
    refine ⟨{ stepUserPassword r { u1 with email := jsTrim e } with
              updatedAt := some now }, ?_, ?_⟩
    · unfold putUsers
      simp only [hfind, hfields]
    · show (stepUserPassword r { u1 with email := jsTrim e }).email = jsTrim e
      rw [stepUserPassword_email]

def userV : User :=
  { id := "u2", name := "V", email := "v@x", password := some "pw2",
    createdAt := "t0" }

def storeUsers : Store := { storeEmpty with users := [userU, userV] }

/-- Concrete instantiation of every hypothesis of C7_user_email_unique. -/
theorem C7_user_email_unique_witness :
    postUsers storeUsers
        { name := some "W", email := some " u@x ", password := some "pw3" }
        "u3" "t2" =
      (.badRequest "E-mail já cadastrado.", storeUsers) ∧
    putUsers storeUsers "u2" { email := some (some "u@x") } "t2" =
      (.badRequest "E-mail já cadastrado para outro usuário.", storeUsers) ∧
    (∃ u', putUsers storeUsers "u1" { email := some (some "u@x") } "t2" =
      (.ok u'.toSafe, { storeUsers with users := storeUsers.users.set 0 u' }) ∧
      u'.email = jsTrim "u@x") :=
  ⟨C7_user_email_unique.1 storeUsers _ "u3" "t2"
      (by decide) (by decide) (by decide) (by decide),
   C7_user_email_unique.2.1 storeUsers "u2" _ "t2" 1 userV "u@x"
      (by decide) (Or.inl rfl) rfl (by decide)
      ⟨0, userU, rfl, by decide, by decide⟩,
   C7_user_email_unique.2.2 storeUsers "u1" _ "t2" 0 userU "u@x"
      (by decide) (Or.inl rfl) rfl (by decide)
      (by
        intro j u' hj he
        rcases j with _ | _ | j
        · rfl
        · rw [show storeUsers.users[1]? = some userV from rfl] at hj
          cases Option.some_inj.mp hj
          exact absurd he (by decide)
        · rw [show storeUsers.users[j + 2]? = none from rfl] at hj
          exact Option.noConfusion hj)⟩

/-! ## Password stripping on every User-bearing response (claim C8) -/

theorem expandReview_user_safe (s : Store) (e : List String) (rv : Review)
    (su : SafeUser) (h : (expandReview s e rv).user = JField.val su) :
    ∃ u ∈ s.users, su = u.toSafe := by
  simp only [expandReview] at h
  cases hc : e.contains "user" with
  | false =>
      rw [hc] at h
      simp [attachIfTruthy] at h
  | true =>
      rw [hc] at h
      cases hf : s.users.find? (fun u => u.id == rv.userId) with
      | none =>
          rw [hf] at h
          simp [attachIfTruthy] at h
      | some u =>
          rw [hf] at h
          simp [attachIfTruthy] at h
          exact ⟨u, List.mem_of_find?_eq_some hf, h.symm⟩

/-- C8: the User payloads of every endpoint are SafeUser projections — the
record type produced by the rest-destructuring that drops the password key —
while the persisted document keeps the password: create responds with the
projection of the stored record (whose password is the request's), list and
getById respond with projections of the stored records without touching the
store, a successful update responds with the projection of a record stored in
the resulting document, and a user attached to a Review by expansion is the
projection of a stored user (the store again unchanged). -/
theorem C8_password_never_in_responses :
    (∀ (s : Store) (r : UserCreateReq) (newId now : String),
      isValidStringO r.name = true →
      isValidStringO r.email = true →
      isValidStringO r.password = true →
      (∀ u ∈ s.users, u.email ≠ jsTrim (r.email.getD "")) →
      ∃ u, postUsers s r newId now = (.ok u.toSafe, { s with users := s.users ++ [u] }) ∧
        u.password = some (r.password.getD "")) ∧
    (∀ s : Store, getUsers s = (.ok (s.users.map User.toSafe), s)) ∧
    (∀ (s : Store) (id : String) (u : User),
      s.users.find? (fun u => u.id == id) = some u →
      getUserById s id = (.ok u.toSafe, s)) ∧
    (∀ (s : Store) (uid : String) (r : UserUpdateReq) (now : String)
        (su : SafeUser) (st : Store),
      putUsers s uid r now = (.ok su, st) →
      ∃ u ∈ st.users, su = u.toSafe) ∧
    (∀ (s : Store) (e : List String) (rv : Review) (su : SafeUser),
      (expandReview s e rv).user = JField.val su →
      ∃ u ∈ s.users, su = u.toSafe) ∧
    (∀ (s : Store) (e : Option (List String)), (getReviews s e).2 = s) := by
  refine ⟨?_, fun s => rfl, ?_, ?_, expandReview_user_safe, getReviews_state⟩
  · intro s r newId now hN hE hPw hnodup
    have hval : (isValidStringO r.name && isValidStringO r.email &&
        isValidStringO r.password) = true := by
      simp [hN, hE, hPw]
    have hany : s.users.any (fun u => u.email == jsTrim (r.email.getD "")) = false := by
      rw [List.any_eq_false]
      intro u hu
      simp [hnodup u hu]
    refine ⟨{ id := newId, name := jsTrim (r.name.getD ""),
              email := jsTrim (r.email.getD ""),
              password := some (r.password.getD ""), createdAt := now,
              updatedAt := none }, ?_, rfl⟩
    unfold postUsers
    simp [hval, hany]
  · intro s id u hf
    unfold getUserById
    rw [hf]
  · intro s uid r now su st h
    unfold putUsers at h
    split at h
    · simp at h
    rename_i idx u0 hfind
    split at h
    · simp at h
    rename_i u hok
    simp only [Prod.mk.injEq, HResp.ok.injEq] at h
    obtain ⟨hsu, hst⟩ := h
    subst hst
    refine ⟨{ u with updatedAt := some now }, ?_, hsu.symm⟩
    have hget := (findWithIdx_spec hfind).1
    have hlt : idx < s.users.length := by
      by_contra hge
      rw [List.getElem?_eq_none (by omega)] at hget
      exact Option.noConfusion hget
    show { u with updatedAt := some now } ∈
      (s.users.set idx { u with updatedAt := some now })
    have hmem : (s.users.set idx { u with updatedAt := some now })[idx]? =
        some { u with updatedAt := some now } := by
      rw [List.getElem?_eq_getElem (by simpa using hlt)]
      simp [List.getElem_set_self]
    exact List.getElem?_mem hmem

def reviewR : Review :=
  { id := "r1", userId := "u1", bookId := "b1", rating := 5, comment := "",
    createdAt := "t0" }

def storeRev : Store :=
  { storeUsers with
    authors := [authorA]
    books := [bookB]
    reviews := [reviewR] }

def userU2 : User := { userU with name := "W", updatedAt := some "t2" }

/-- Concrete instantiation of every hypothesis of
C8_password_never_in_responses. -/
theorem C8_password_never_in_responses_witness :
    (∃ u, postUsers storeEmpty
        { name := some "U", email := some "u@x", password := some "pw" }
        "u1" "t0" =
      (.ok u.toSafe, { storeEmpty with users := storeEmpty.users ++ [u] }) ∧
      u.password = some "pw") ∧
    getUserById storeUsers "u1" = (.ok userU.toSafe, storeUsers) ∧
    (∃ u ∈ ({ storeUsers with
        users := storeUsers.users.set 0 userU2 } : Store).users,
      userU2.toSafe = u.toSafe) ∧
    (∃ u ∈ storeRev.users, userU.toSafe = u.toSafe) :=
  ⟨C8_password_never_in_responses.1 storeEmpty _ "u1" "t0"
      (by decide) (by decide) (by decide) (by decide),
   C8_password_never_in_responses.2.2.1 storeUsers "u1" userU (by decide),
   C8_password_never_in_responses.2.2.2.1 storeUsers "u1"
      { name := some (some "W") } "t2" userU2.toSafe
      { storeUsers with users := storeUsers.users.set 0 userU2 } (by decide),
   C8_password_never_in_responses.2.2.2.2.1 storeRev ["user"] reviewR
      userU.toSafe (by decide)⟩

/-! ## delete(User) guard semantics (claim C9) -/

theorem deleteUsers_ignores_reviews_orders (s : Store) (id : String)
    (rev : List Review) (ord : List Order) :
    deleteUsers { s with reviews := rev, orders := ord } id =
      ((deleteUsers s id).1,
        { (deleteUsers s id).2 with reviews := rev, orders := ord }) := by
  unfold deleteUsers
  simp only []
  by_cases hg : s.books.any (fun b => b.authorId == id) = true
  · rw [if_pos hg, if_pos hg]
  · rw [if_neg hg, if_neg hg]
    by_cases hl : ((s.users.filter (fun u => u.id != id)).length ==
        s.users.length) = true
    · rw [if_pos hl, if_pos hl]
    · rw [if_neg hl, if_neg hl]

/-- C9: DELETE /users/:id never consults reviews or orders (replacing them
wholesale changes neither the response nor the rest of the resulting
document); its guard fires exactly when some Book's authorId — an Author
identifier — equals the target User id, refusing the delete even then; with
no such Book, the handler removes the user when it exists and reports
not-found when it does not. -/
theorem C9_delete_user_conflated_guard :
    (∀ (s : Store) (id : String) (rev : List Review) (ord : List Order),
      deleteUsers { s with reviews := rev, orders := ord } id =
        ((deleteUsers s id).1,
          { (deleteUsers s id).2 with reviews := rev, orders := ord })) ∧
    (∀ (s : Store) (id : String),
      (∃ b ∈ s.books, b.authorId = id) →
      deleteUsers s id =
        (.badRequest "Usuário possui registros associados (Livros) e não pode ser excluído.", s)) ∧
    (∀ (s : Store) (id : String),
      (∀ b ∈ s.books, b.authorId ≠ id) →
      (∃ u ∈ s.users, u.id = id) →
      deleteUsers s id =
        (.noContent, { s with users := s.users.filter (fun u => u.id != id) })) ∧
    (∀ (s : Store) (id : String),
      (∀ b ∈ s.books, b.authorId ≠ id) →
      (∀ u ∈ s.users, u.id ≠ id) →
      deleteUsers s id = (.notFound "Usuário não encontrado", s)) := by
  refine ⟨deleteUsers_ignores_reviews_orders, ?_, ?_, ?_⟩
  · intro s id hex
    obtain ⟨b, hb, hid⟩ := hex
    unfold deleteUsers
    have hany : s.books.any (fun b => b.authorId == id) = true :=
      List.any_eq_true.mpr ⟨b, hb, by simp [hid]⟩
    simp [hany]
  · intro s id hn hex
    obtain ⟨u, hu, huid⟩ := hex
    unfold deleteUsers
    have hany : s.books.any (fun b => b.authorId == id) = false := by
      rw [List.any_eq_false]
      intro b hb
      simp [hn b hb]
    have hlen : (s.users.filter (fun u => u.id != id)).length ≠ s.users.length :=
      filter_ne_length_lt hu huid
    simp [hany, hlen]
  · intro s id hn hu
    unfold deleteUsers
    have hany : s.books.any (fun b => b.authorId == id) = false := by
      rw [List.any_eq_false]
      intro b hb
      simp [hn b hb]
    have hlen : (s.users.filter (fun u => u.id != id)).length = s.users.length :=
      filter_ne_length_eq hu
    simp [hany, hlen]

/-- Concrete instantiation of every hypothesis of
C9_delete_user_conflated_guard: deleting "a1" as a User is refused because a
Book's authorId is "a1", although no User with id "a1" exists. -/
theorem C9_delete_user_conflated_guard_witness :
    deleteUsers storeAB "a1" =
      (.badRequest "Usuário possui registros associados (Livros) e não pode ser excluído.", storeAB) ∧
    (∀ u ∈ storeAB.users, u.id ≠ "a1") ∧
    deleteUsers storeUsers "u1" =
      (.noContent, { storeUsers with
        users := storeUsers.users.filter (fun u => u.id != "u1") }) ∧
    deleteUsers storeEmpty "zz" = (.notFound "Usuário não encontrado", storeEmpty) :=
  ⟨C9_delete_user_conflated_guard.2.1 storeAB "a1" (by decide),
   by decide,
   C9_delete_user_conflated_guard.2.2.1 storeUsers "u1" (by decide) (by decide),
   C9_delete_user_conflated_guard.2.2.2 storeEmpty "zz" (by decide) (by decide)⟩

/-! ## Guard-before-existence ordering in the deletes (claim C10) -/

def storeDanglingCat : Store := { storeEmpty with books := [bookBC] }

def storeDanglingPub : Store := { storeEmpty with books := [bookBP] }

/-- C10: in DELETE /authors/:id, /categories/:id and /publishers/:id the
referenced-by-a-Book guard runs before the existence check, so an id that
matches no record of the target collection but appears as the corresponding
foreign key of some Book is answered with the referenced-by error, not with
not-found, and the store is unchanged. -/
theorem C10_delete_guard_before_existence :
    (∀ (s : Store) (id : String),
      (∀ a ∈ s.authors, a.id ≠ id) →
      (∃ b ∈ s.books, b.authorId = id) →
      deleteAuthors s id =
        (.badRequest "Autor está associado a um livro e não pode ser excluído.", s)) ∧
    (∀ (s : Store) (id : String),
      (∀ c ∈ s.categories, c.id ≠ id) →
      (∃ b ∈ s.books, b.categoryId = some id) →
      deleteCategories s id =
        (.badRequest "Categoria está associada a um livro e não pode ser excluída.", s)) ∧
    (∀ (s : Store) (id : String),
      (∀ p ∈ s.publishers, p.id ≠ id) →
      (∃ b ∈ s.books, b.publisherId = some id) →
      deletePublishers s id =
        (.badRequest "Editora está associada a um livro e não pode ser excluída.", s)) := by
  refine ⟨?_, ?_, ?_⟩
  · intro s id hnone hex
    obtain ⟨b, hb, hid⟩ := hex
    unfold deleteAuthors
    have hany : s.books.any (fun b => b.authorId == id) = true :=
      List.any_eq_true.mpr ⟨b, hb, by simp [hid]⟩
    simp [hany]
  · intro s id hnone hex
    obtain ⟨b, hb, hid⟩ := hex
    unfold deleteCategories
    have hany : s.books.any (fun b => b.categoryId == some id) = true :=
      List.any_eq_true.mpr ⟨b, hb, by simp [hid]⟩
    simp [hany]
  · intro s id hnone hex
    obtain ⟨b, hb, hid⟩ := hex
    unfold deletePublishers
    have hany : s.books.any (fun b => b.publisherId == some id) = true :=
      List.any_eq_true.mpr ⟨b, hb, by simp [hid]⟩
    simp [hany]

/-- Concrete instantiation of every hypothesis of
C10_delete_guard_before_existence: each store holds a Book whose foreign key
matches no record of the target collection (reachable for categoryId, which
Book creation never validates). -/
theorem C10_delete_guard_before_existence_witness :
    deleteAuthors storeDangling "ghost" =
      (.badRequest "Autor está associado a um livro e não pode ser excluído.", storeDangling) ∧
    deleteCategories storeDanglingCat "c1" =
      (.badRequest "Categoria está associada a um livro e não pode ser excluída.", storeDanglingCat) ∧
    deletePublishers storeDanglingPub "p1" =
      (.badRequest "Editora está associada a um livro e não pode ser excluída.", storeDanglingPub) :=
  ⟨C10_delete_guard_before_existence.1 storeDangling "ghost" (by decide) (by decide),
   C10_delete_guard_before_existence.2.1 storeDanglingCat "c1" (by decide) (by decide),
   C10_delete_guard_before_existence.2.2 storeDanglingPub "p1" (by decide) (by decide)⟩

end BookVerse
